import Mathlib

/-!
Verification of the agentic travel planner (Durable Task extension for the
Agent Framework).  The Python sources under `samples/python/azure-container-apps`
and `samples/python/azure-functions` are shallowly embedded below: pure helper
functions become Lean functions, the orchestration generator becomes an explicit
state machine over the sequence of recorded outcomes fed to its yield points,
and the parts of the durable-task engine that are not part of this repository
(replay dispatch, status transitions, the event correlator) are modelled from
the specification, marked as such in their doc comments.
-/

namespace TravelPlanner

/-- JSON values, the data exchanged between the HTTP layer, the orchestration
and the agents.  Numbers are modelled as rationals (the Python sources use
floats only for currency rates and ratings; no claim depends on rounding). -/
inductive JVal : Type
  | jnull : JVal
  | jbool : Bool → JVal
  | jnum : ℚ → JVal
  | jstr : String → JVal
  | jarr : List JVal → JVal
  | jobj : List (String × JVal) → JVal
  deriving Repr, Inhabited

/-- Key lookup in a JSON object; later bindings shadow earlier ones, as in a
Python dict built left to right. -/
def jget (d : List (String × JVal)) (k : String) : Option JVal :=
  d.reverse.lookup k

/-- Python truthiness of a JSON-decoded value (`if value:`). -/
def jtruthy : JVal → Bool
  | .jnull => false
  | .jbool b => b
  | .jnum q => q != 0
  | .jstr s => !s.data.isEmpty
  | .jarr xs => !xs.isEmpty
  | .jobj d => !d.isEmpty

/-! ### A small JSON reader, modelling `json.loads`

The reader is fuel-based and total.  It accepts the core JSON grammar
(null, booleans, decimal numbers with optional fraction and exponent,
strings with the common escapes, arrays, objects); inputs outside this
grammar make it fail, exactly as `json.loads` raises `JSONDecodeError`. -/

def digitVal (c : Char) : Nat := c.toNat - '0'.toNat

def digitsToNat (cs : List Char) : Nat :=
  cs.foldl (fun acc c => acc * 10 + digitVal c) 0

def isDigit (c : Char) : Bool := '0' ≤ c && c ≤ '9'

def skipWs : List Char → List Char
  | [] => []
  | c :: cs => if c.isWhitespace then skipWs cs else c :: cs

def takeDigits : List Char → List Char × List Char
  | [] => ([], [])
  | c :: cs =>
    if isDigit c then
      let (ds, rest) := takeDigits cs
      (c :: ds, rest)
    else ([], c :: cs)

/-- Parse an unescaped JSON string body up to the closing quote. -/
def parseStrBody : Nat → List Char → Option (String × List Char)
  | 0, _ => none
  | _, [] => none
  | fuel + 1, c :: cs =>
    if c = '"' then some ("", cs)
    else if c = '\\' then
      match cs with
      | [] => none
      | e :: cs' =>
        let esc : Option Char :=
          if e = '"' then some '"'
          else if e = '\\' then some '\\'
          else if e = '/' then some '/'
          else if e = 'n' then some '\n'
          else if e = 't' then some '\t'
          else if e = 'r' then some '\r'
          else none
        match esc with
        | none => none
        | some ch => (parseStrBody fuel cs').map (fun (s, r) => (ch.toString ++ s, r))
    else (parseStrBody fuel cs).map (fun (s, r) => (c.toString ++ s, r))

/-- Parse a JSON number starting at a digit or minus sign. -/
def parseNum (cs : List Char) : Option (ℚ × List Char) :=
  let (neg, cs₁) := match cs with
    | '-' :: rest => (true, rest)
    | rest => (false, rest)
  let (intDs, cs₂) := takeDigits cs₁
  if intDs.isEmpty then none else
  let intPart : ℚ := (digitsToNat intDs : ℚ)
  let (frac, cs₃) : ℚ × List Char := match cs₂ with
    | '.' :: rest =>
      let (fds, r) := takeDigits rest
      (((digitsToNat fds : ℚ)) / ((10 : ℚ) ^ fds.length), r)
    | rest => (0, rest)
  let base : ℚ := intPart + frac
  let (scaled, cs₄) : Option ℚ × List Char := match cs₃ with
    | 'e' :: rest =>
      (match rest with
       | '-' :: r' => let (eds, r) := takeDigits r'
                      (if eds.isEmpty then none else some (base / (10 : ℚ) ^ digitsToNat eds), r)
       | '+' :: r' => let (eds, r) := takeDigits r'
                      (if eds.isEmpty then none else some (base * (10 : ℚ) ^ digitsToNat eds), r)
       | r' => let (eds, r) := takeDigits r'
               (if eds.isEmpty then none else some (base * (10 : ℚ) ^ digitsToNat eds), r))
    | 'E' :: rest =>
      (match rest with
       | '-' :: r' => let (eds, r) := takeDigits r'
                      (if eds.isEmpty then none else some (base / (10 : ℚ) ^ digitsToNat eds), r)
       | '+' :: r' => let (eds, r) := takeDigits r'
                      (if eds.isEmpty then none else some (base * (10 : ℚ) ^ digitsToNat eds), r)
       | r' => let (eds, r) := takeDigits r'
               (if eds.isEmpty then none else some (base * (10 : ℚ) ^ digitsToNat eds), r))
    | rest => (some base, rest)
  match scaled with
  | none => none
  | some q => some (if neg then -q else q, cs₄)

mutual

def parseJVal : Nat → List Char → Option (JVal × List Char)
  | 0, _ => none
  | fuel + 1, cs =>
    match skipWs cs with
    | [] => none
    | c :: rest =>
      if c = 'n' then
        match rest with
        | 'u' :: 'l' :: 'l' :: r => some (.jnull, r)
        | _ => none
      else if c = 't' then
        match rest with
        | 'r' :: 'u' :: 'e' :: r => some (.jbool true, r)
        | _ => none
      else if c = 'f' then
        match rest with
        | 'a' :: 'l' :: 's' :: 'e' :: r => some (.jbool false, r)
        | _ => none
      else if c = '"' then
        (parseStrBody (rest.length + 1) rest).map (fun (s, r) => (.jstr s, r))
      else if c = '[' then
        match skipWs rest with
        | ']' :: r => some (.jarr [], r)
        | rest' => (parseElems fuel rest').map (fun (xs, r) => (.jarr xs, r))
      else if c = '{' then
        match skipWs rest with
        | '}' :: r => some (.jobj [], r)
        | rest' => (parseMembers fuel rest').map (fun (ms, r) => (.jobj ms, r))
      else if isDigit c || c = '-' then
        (parseNum (c :: rest)).map (fun (q, r) => (.jnum q, r))
      else none

def parseElems : Nat → List Char → Option (List JVal × List Char)
  | 0, _ => none
  | fuel + 1, cs =>
    match parseJVal fuel cs with
    | none => none
    | some (v, rest) =>
      match skipWs rest with
      | ',' :: r => (parseElems fuel r).map (fun (xs, r') => (v :: xs, r'))
      | ']' :: r => some ([v], r)
      | _ => none

def parseMembers : Nat → List Char → Option (List (String × JVal) × List Char)
  | 0, _ => none
  | fuel + 1, cs =>
    match skipWs cs with
    | '"' :: rest =>
      match parseStrBody (rest.length + 1) rest with
      | none => none
      | some (k, r₁) =>
        match skipWs r₁ with
        | ':' :: r₂ =>
          match parseJVal fuel r₂ with
          | none => none
          | some (v, r₃) =>
            match skipWs r₃ with
            | ',' :: r₄ => (parseMembers fuel r₄).map (fun (ms, r') => ((k, v) :: ms, r'))
            | '}' :: r₄ => some ([(k, v)], r₄)
            | _ => none
        | _ => none
    | _ => none

end

/-- Model of Python `json.loads`: parse the whole string, allowing trailing
whitespace only; anything else raises `JSONDecodeError`, modelled as `.error`. -/
def jsonLoads (s : String) : Except String JVal :=
  match parseJVal (s.length + 1) s.toList with
  | none => .error ("JSONDecodeError: " ++ s)
  | some (v, rest) =>
    if (skipWs rest).isEmpty then .ok v
    else .error ("JSONDecodeError: extra data in " ++ s)

/-- Split a character list at the first occurrence of `pat`, returning the
pieces before and after it, or `none` when `pat` does not occur.  (The
built-in `String.splitOn` does not reduce inside the kernel, so string
manipulation is done on the underlying character lists.) -/
def splitFirstAux (pat : List Char) : List Char → Option (List Char × List Char)
  | [] => if pat.isEmpty then some ([], []) else none
  | c :: cs =>
    if pat.isPrefixOf (c :: cs) then some ([], (c :: cs).drop pat.length)
    else
      match splitFirstAux pat cs with
      | none => none
      | some (pre, post) => some (c :: pre, post)

/-- Split a string at the first occurrence of `pat`. -/
def splitFirst (s pat : String) : Option (String × String) :=
  (splitFirstAux pat.data s.data).map (fun p => (String.mk p.1, String.mk p.2))

/-- Strip leading whitespace (regex `\s*`). -/
def trimL (s : String) : String := String.mk (s.data.dropWhile Char.isWhitespace)

/-- Strip trailing whitespace (regex `\s*` before the closing fence). -/
def trimR (s : String) : String :=
  String.mk ((s.data.reverse.dropWhile Char.isWhitespace).reverse)

/-- Model of Python `str.upper()` (ASCII uppercasing; the currency codes it
is applied to are ASCII). -/
def strUpper (s : String) : String := String.mk (s.data.map Char.toUpper)

/-- Model of the fence-stripping step of `parse_agent_response`
(worker.py line 93): `re.search` with pattern matching a ```-fenced block with
an optional `json` tag, lazily capturing the body; when the pattern does not
match the string is used unchanged. -/
def stripFence (s : String) : String :=
  match splitFirst s "```" with
  | none => s
  | some (_, afterOpen) =>
    let body :=
      if "json".data.isPrefixOf afterOpen.data then String.mk (afterOpen.data.drop 4)
      else afterOpen
    let body := trimL body
    match splitFirst body "```" with
    | none => s
    | some (cap, _) => trimR cap

/-! ### Travel models (`models/travel_models.py`)

Each Pydantic model becomes a structure; its validator maps a JSON object to
the structure, resolving aliases (with `populate_by_name` both the alias and
the field name are accepted, the alias taking precedence), applying defaults
for missing keys and failing on type mismatches, following Pydantic v2 lax
mode (numeric strings coerce to numbers; nothing coerces to `str`). -/

structure TravelRequest where
  user_name : String := ""
  preferences : String := ""
  duration_in_days : Int := 3
  budget : String := ""
  travel_dates : String := ""
  special_requirements : String := ""
  deriving Repr, DecidableEq, Inhabited

structure DestinationRecommendation where
  destination_name : String := ""
  description : String := ""
  reasoning : String := ""
  match_score : Int := 0
  deriving Repr, DecidableEq, Inhabited

structure DestinationRecommendations where
  recommendations : List DestinationRecommendation := []
  deriving Repr, DecidableEq, Inhabited

structure Activity where
  time : String := ""
  activity_name : String := ""
  description : String := ""
  location : String := ""
  estimated_cost : String := ""
  deriving Repr, DecidableEq, Inhabited

structure DayPlan where
  day : Int := 1
  date : String := ""
  activities : List Activity := []
  deriving Repr, DecidableEq, Inhabited

structure Itinerary where
  destination_name : String := ""
  travel_dates : String := ""
  daily_plan : List DayPlan := []
  estimated_total_cost : String := ""
  additional_notes : String := ""
  deriving Repr, DecidableEq, Inhabited

structure Attraction where
  name : String := ""
  category : String := ""
  description : String := ""
  location : String := ""
  visit_duration : String := ""
  estimated_cost : String := ""
  rating : ℚ := 0
  deriving Repr, DecidableEq, Inhabited

structure Restaurant where
  name : String := ""
  cuisine : String := ""
  description : String := ""
  location : String := ""
  price_range : String := ""
  rating : ℚ := 0
  deriving Repr, DecidableEq, Inhabited

structure LocalRecommendations where
  attractions : List Attraction := []
  restaurants : List Restaurant := []
  insider_tips : String := ""
  deriving Repr, DecidableEq, Inhabited

structure BookingResult where
  booking_id : String := ""
  status : String := ""
  destination : String := ""
  total_cost : String := ""
  confirmation_number : String := ""
  booking_date : String := ""
  message : String := ""
  next_steps : String := ""
  deriving Repr, DecidableEq, Inhabited

structure TravelPlan where
  destination_recommendations : Option DestinationRecommendations := none
  itinerary : Option Itinerary := none
  local_recommendations : Option LocalRecommendations := none
  attractions : List Attraction := []
  restaurants : List Restaurant := []
  insider_tips : String := ""
  deriving Repr, DecidableEq, Inhabited

structure TravelPlanResult where
  plan : Option TravelPlan := none
  booking_result : Option BookingResult := none
  booking_confirmation : String := ""
  document_url : String := ""
  deriving Repr, DecidableEq, Inhabited

/-- Alias-aware key access: with `populate_by_name` both the serialization
alias and the field name populate the field, the alias taking precedence. -/
def jfield (d : List (String × JVal)) (al nm : String) : Option JVal :=
  match jget d al with
  | some v => some v
  | none => jget d nm

/-- Validate a value against `str`: Pydantic v2 does not coerce to `str`. -/
def vStr : JVal → Except String String
  | .jstr s => .ok s
  | _ => .error "ValidationError: str expected"

/-- Validate a value against `int`: integral numbers and (lax mode) strings
that read as integral numbers are accepted. -/
def vInt : JVal → Except String Int
  | .jnum q => if q.den = 1 then .ok q.num else .error "ValidationError: int expected"
  | .jstr s =>
    (match jsonLoads s with
     | .ok (.jnum q) => if q.den = 1 then .ok q.num else .error "ValidationError: int expected"
     | _ => .error "ValidationError: int expected")
  | _ => .error "ValidationError: int expected"

/-- Validate a value against `float`: numbers and (lax mode) numeric strings. -/
def vFloat : JVal → Except String ℚ
  | .jnum q => .ok q
  | .jstr s =>
    (match jsonLoads s with
     | .ok (.jnum q) => .ok q
     | _ => .error "ValidationError: float expected")
  | _ => .error "ValidationError: float expected"

/-- Validate an optional field: a missing key yields the default. -/
def vField (d : List (String × JVal)) (al nm : String) (dflt : α)
    (v : JVal → Except String α) : Except String α :=
  match jfield d al nm with
  | none => .ok dflt
  | some jv => v jv

/-- Validate a `List[...]` field: only actual arrays are accepted. -/
def vList (v : JVal → Except String α) : JVal → Except String (List α)
  | .jarr xs => xs.mapM v
  | _ => .error "ValidationError: list expected"

def validateTravelRequest (d : List (String × JVal)) : Except String TravelRequest := do
  let user_name ← vField d "userName" "user_name" "" vStr
  let preferences ← vField d "preferences" "preferences" "" vStr
  let duration_in_days ← vField d "durationInDays" "duration_in_days" 3 vInt
  let budget ← vField d "budget" "budget" "" vStr
  let travel_dates ← vField d "travelDates" "travel_dates" "" vStr
  let special_requirements ← vField d "specialRequirements" "special_requirements" "" vStr
  return ⟨user_name, preferences, duration_in_days, budget, travel_dates, special_requirements⟩

def vDestinationRecommendation : JVal → Except String DestinationRecommendation
  | .jobj d => do
    let nm ← vField d "DestinationName" "destination_name" "" vStr
    let desc ← vField d "Description" "description" "" vStr
    let rsn ← vField d "Reasoning" "reasoning" "" vStr
    let sc ← vField d "MatchScore" "match_score" 0 vInt
    return ⟨nm, desc, rsn, sc⟩
  | _ => .error "ValidationError: DestinationRecommendation expected"

def validateDestinationRecommendations (d : List (String × JVal)) :
    Except String DestinationRecommendations := do
  let recs ← vField d "Recommendations" "recommendations" [] (vList vDestinationRecommendation)
  return ⟨recs⟩

def vActivity : JVal → Except String Activity
  | .jobj d => do
    let t ← vField d "Time" "time" "" vStr
    let an ← vField d "ActivityName" "activity_name" "" vStr
    let desc ← vField d "Description" "description" "" vStr
    let loc ← vField d "Location" "location" "" vStr
    let ec ← vField d "EstimatedCost" "estimated_cost" "" vStr
    return ⟨t, an, desc, loc, ec⟩
  | _ => .error "ValidationError: Activity expected"

def vDayPlan : JVal → Except String DayPlan
  | .jobj d => do
    let dy ← vField d "Day" "day" 1 vInt
    let dt ← vField d "Date" "date" "" vStr
    let acts ← vField d "Activities" "activities" [] (vList vActivity)
    return ⟨dy, dt, acts⟩
  | _ => .error "ValidationError: DayPlan expected"

def validateItinerary (d : List (String × JVal)) : Except String Itinerary := do
  let nm ← vField d "DestinationName" "destination_name" "" vStr
  let td ← vField d "TravelDates" "travel_dates" "" vStr
  let dp ← vField d "DailyPlan" "daily_plan" [] (vList vDayPlan)
  let etc ← vField d "EstimatedTotalCost" "estimated_total_cost" "" vStr
  let an ← vField d "AdditionalNotes" "additional_notes" "" vStr
  return ⟨nm, td, dp, etc, an⟩

def vAttraction : JVal → Except String Attraction
  | .jobj d => do
    let nm ← vField d "Name" "name" "" vStr
    let cat ← vField d "Category" "category" "" vStr
    let desc ← vField d "Description" "description" "" vStr
    let loc ← vField d "Location" "location" "" vStr
    let vd ← vField d "VisitDuration" "visit_duration" "" vStr
    let ec ← vField d "EstimatedCost" "estimated_cost" "" vStr
    let rt ← vField d "Rating" "rating" 0 vFloat
    return ⟨nm, cat, desc, loc, vd, ec, rt⟩
  | _ => .error "ValidationError: Attraction expected"

def vRestaurant : JVal → Except String Restaurant
  | .jobj d => do
    let nm ← vField d "Name" "name" "" vStr
    let cui ← vField d "Cuisine" "cuisine" "" vStr
    let desc ← vField d "Description" "description" "" vStr
    let loc ← vField d "Location" "location" "" vStr
    let pr ← vField d "PriceRange" "price_range" "" vStr
    let rt ← vField d "Rating" "rating" 0 vFloat
    return ⟨nm, cui, desc, loc, pr, rt⟩
  | _ => .error "ValidationError: Restaurant expected"

def validateLocalRecommendations (d : List (String × JVal)) :
    Except String LocalRecommendations := do
  let att ← vField d "Attractions" "attractions" [] (vList vAttraction)
  let res ← vField d "Restaurants" "restaurants" [] (vList vRestaurant)
  let tips ← vField d "InsiderTips" "insider_tips" "" vStr
  return ⟨att, res, tips⟩

/-- Validation of `BookingResult(**booking_result)` on the string-valued dict
returned by the `book_trip` activity: unknown keys are ignored and missing
keys fall back to the defaults, so this construction is total. -/
def validateBookingResult (d : List (String × String)) : BookingResult :=
  let get (k : String) : String := (d.reverse.lookup k).getD ""
  ⟨get "booking_id", get "status", get "destination", get "total_cost",
   get "confirmation_number", get "booking_date", get "message", get "next_steps"⟩

/-! ### `parse_agent_response` (worker.py lines 52-110)

Agent responses are arbitrary Python objects.  `MVal` is an object that is an
instance of one of the travel model classes; `PyRaw` is the universe of raw
values the helper can see (a model instance, a string, a dict, `None`, some
other JSON-decoded value, or any other object); `AgentRes` is the response
object, recording whether it has a `try_parse_value` method (and what that
call returns), and its `text` / `value` attributes. -/

inductive MVal : Type
  | dest : DestinationRecommendations → MVal
  | itin : Itinerary → MVal
  | locals : LocalRecommendations → MVal
  deriving Repr, DecidableEq, Inhabited

inductive PyRaw : Type
  | model : MVal → PyRaw
  | pstr : String → PyRaw
  | pdict : List (String × JVal) → PyRaw
  | pnone : PyRaw
  | pjson : JVal → PyRaw
  | pother : PyRaw
  deriving Repr, Inhabited

structure AgentRes where
  tryParse : Option (Option MVal) := none
  text : Option PyRaw := none
  value : Option PyRaw := none
  self : PyRaw := .pother
  deriving Repr, Inhabited

/-- Python truthiness of a raw value (`if not destinations`, `if itinerary`):
model instances are always truthy, strings/collections by non-emptiness. -/
def PyRaw.truthy : PyRaw → Bool
  | .model _ => true
  | .pstr s => !s.data.isEmpty
  | .pdict d => !d.isEmpty
  | .pnone => false
  | .pjson v => jtruthy v
  | .pother => true

/-- Raw-text extraction of `parse_agent_response` (worker.py lines 76-82):
the `text` attribute if present, else `value`, else the response itself. -/
def extractRaw (r : AgentRes) : PyRaw :=
  match r.text with
  | some v => v
  | none =>
    match r.value with
    | some v => v
    | none => r.self

/-- View of a JSON-decoded value as the Python object `json.loads` yields:
`null` becomes `None` and strings stay strings. -/
def pyOfJson : JVal → PyRaw
  | .jnull => .pnone
  | .jstr s => .pstr s
  | v => .pjson v

/-- The body of `parse_agent_response` after raw-text extraction (worker.py
lines 87-110): a model instance is returned unchanged; a string is fence
stripped and JSON decoded, a decode failure returning `None`; a decoded or
direct dict is validated against the target model, a validation failure
returning `None`; anything else is returned as is. -/
def parseRawText (validate : List (String × JVal) → Except String MVal) :
    PyRaw → Except String PyRaw
  | .model m => .ok (.model m)
  | .pstr s =>
    (match jsonLoads (stripFence s) with
     | .error _ => .ok .pnone
     | .ok (.jobj d) =>
       (match validate d with
        | .ok m => .ok (.model m)
        | .error _ => .ok .pnone)
     | .ok v => .ok (pyOfJson v))
  | .pdict d =>
    (match validate d with
     | .ok m => .ok (.model m)
     | .error _ => .ok .pnone)
  | raw => .ok raw

/-- Transcription of `parse_agent_response` (worker.py lines 52-110).
`validate` is the `model_class(**dict)` constructor of the target model.
The result is `Except`-typed so that the error channel is visible:
the function catches `JSONDecodeError` and validation errors itself
(returning `None`, modelled as `.pnone`), so every branch is `.ok`. -/
def parse_agent_response (validate : List (String × JVal) → Except String MVal)
    (r : AgentRes) : Except String PyRaw :=
  match r.tryParse with
  | some (some m) => .ok (.model m)
  | _ => parseRawText validate (extractRaw r)

/-- The three `model_class` arguments used by the orchestration. -/
def destClass (d : List (String × JVal)) : Except String MVal :=
  (validateDestinationRecommendations d).map .dest

def itinClass (d : List (String × JVal)) : Except String MVal :=
  (validateItinerary d).map .itin

def localsClass (d : List (String × JVal)) : Except String MVal :=
  (validateLocalRecommendations d).map .locals

/-! ### The orchestration as a resumable state machine (worker.py lines 279-527)

The generator `travel_planner_orchestration` suspends at its `yield` points;
replay feeds each suspension point the recorded outcome of the awaitable it
yielded.  `OrchState` is the program counter plus the live locals at each
suspension point; `stepState` resumes the generator at a suspension point
with one recorded outcome and runs it to the next suspension point, a return,
or an escaping error.  A history is the sequence of recorded outcomes (each
with the deterministic replay timestamp the context exposes as
`current_utc_datetime` when the outcome is processed). -/

structure Env where
  req : TravelRequest
  iid : String
  deriving Repr, Inhabited

/-- The prompt of step 1 (worker.py lines 325-333). -/
def destinationPrompt (r : TravelRequest) : String :=
  "Based on the following preferences, recommend 3 travel destinations:\nUser: "
    ++ r.user_name ++ "\nPreferences: " ++ r.preferences ++ "\nDuration: "
    ++ toString r.duration_in_days ++ " days\nBudget: " ++ r.budget
    ++ "\nTravel Dates: " ++ r.travel_dates ++ "\nSpecial Requirements: "
    ++ r.special_requirements
    ++ "\n\nProvide detailed explanations for each recommendation highlighting why it matches the user's preferences."

/-- The prompt of step 2 (worker.py lines 363-369). -/
def itineraryPrompt (r : TravelRequest) (destName : String) : String :=
  "Create a detailed daily itinerary for a trip to " ++ destName ++ ":\nDuration: "
    ++ toString r.duration_in_days ++ " days\nBudget: " ++ r.budget
    ++ "\nTravel Dates: " ++ r.travel_dates ++ "\nSpecial Requirements: "
    ++ r.special_requirements
    ++ "\n\nInclude a mix of sightseeing, cultural activities, and relaxation time with realistic costs."

/-- The prompt of step 3 (worker.py lines 391-395). -/
def localPrompt (r : TravelRequest) (destName : String) : String :=
  "Provide local recommendations for " ++ destName ++ ":\nDuration of Stay: "
    ++ toString r.duration_in_days
    ++ " days\nInclude: Hidden gems, family-friendly options, authentic local experiences"
    ++ "\n\nProvide authentic local attractions, restaurants, and insider tips."

/-- The input of the `book_trip` activity call (worker.py lines 456-462). -/
structure BookingReq where
  destination_name : String
  estimated_cost : String
  travel_dates : String
  user_name : String
  approval_comments : JVal
  deriving Repr, Inhabited

/-- A scheduling request issued by the orchestration at a suspension point:
an agent run (with its prompt), an external-event subscription, a timer with
its deadline, or an activity call with its input. -/
inductive SchedReq : Type
  | agentRun : String → String → SchedReq
  | waitExternal : String → SchedReq
  | timer : Nat → SchedReq
  | activity : String → BookingReq → SchedReq
  deriving Repr, Inhabited

/-- A completion event appended to the history for one of the two racing
awaitables, tagged with its history sequence number. -/
inductive REv : Type
  | approval : JVal → REv
  | timerFired : REv
  deriving Repr, Inhabited

structure RaceEv where
  seq : Nat
  ev : REv
  deriving Repr, Inhabited

/-- Modelled from the spec: the Event Correlator's race primitive (§4.4,
absent from src/ — it lives in the durabletask library behind `when_any`).
Of all completion events appended for the racing awaitables, the one with
the lowest sequence number wins; ties in favour of the earlier append. -/
def raceWinner : List RaceEv → Option RaceEv
  | [] => none
  | e :: es =>
    match raceWinner es with
    | none => some e
    | some w => some (if w.seq < e.seq then w else e)

/-- The recorded outcome delivered to one suspension point: an agent-run
response, the set of race completion events, an activity result (the
string-valued dict `book_trip` returns), or a failure delivered by
re-raising at the yield point. -/
inductive Outcome : Type
  | agent : AgentRes → Outcome
  | race : List RaceEv → Outcome
  | activityDone : List (String × String) → Outcome
  | failure : String → Outcome
  deriving Repr, Inhabited

structure HEntry where
  ts : Nat
  out : Outcome
  deriving Repr, Inhabited

/-- The orchestration's return value: either the serialized
`TravelPlanResult`, or the single-key error dict returned by the
`No destinations found` guard and by the `except` handler. -/
inductive OrchOutput : Type
  | result : TravelPlanResult → OrchOutput
  | errorDict : String → OrchOutput
  deriving Repr, Inhabited

inductive OrchState : Type
  | stDest : OrchState
  | stItin : DestinationRecommendations → DestinationRecommendation → OrchState
  | stLocal : DestinationRecommendations → DestinationRecommendation → PyRaw → OrchState
  | stWait : DestinationRecommendations → DestinationRecommendation → PyRaw → PyRaw → Nat → OrchState
  | stBook : DestinationRecommendations → DestinationRecommendation → PyRaw → PyRaw → BookingReq → OrchState
  | done : OrchOutput → OrchState
  | divergent : OrchState
  deriving Repr, Inhabited

/-- Evaluation of `itinerary.<attr> if itinerary else <default>`: a falsy
value yields the default, a truthy `Itinerary` yields the attribute, and a
truthy non-`Itinerary` raises `AttributeError`. -/
def condAttrItin (i : PyRaw) (f : Itinerary → α) (dflt : α) : Except String α :=
  if i.truthy then
    match i with
    | .model (.itin it) => .ok (f it)
    | _ => .error "AttributeError: itinerary attribute"
  else .ok dflt

/-- Evaluation of `local_recs.<attr> if local_recs else <default>`. -/
def condAttrLocals (l : PyRaw) (f : LocalRecommendations → α) (dflt : α) : Except String α :=
  if l.truthy then
    match l with
    | .model (.locals lr) => .ok (f lr)
    | _ => .error "AttributeError: local_recs attribute"
  else .ok dflt

/-- The `WaitingForApproval` custom-status payload (worker.py lines 408-420):
its construction evaluates attribute accesses on the itinerary and
local-recommendation values, which can raise before the wait is reached. -/
def waitStatusCheck (i l : PyRaw) : Except String Unit := do
  let _ ← condAttrItin i (fun it => it.travel_dates) "TBD"
  let _ ← condAttrItin i (fun it => it.estimated_total_cost) "TBD"
  let _ ← condAttrItin i (fun it => it.daily_plan) []
  let _ ← condAttrLocals l (fun lr => lr.attractions) []
  let _ ← condAttrLocals l (fun lr => lr.restaurants) []
  let _ ← condAttrLocals l (fun lr => lr.insider_tips) ""
  return ()

/-- Pydantic validation of the `itinerary` field of `TravelPlan`: `None` and
`Itinerary` instances pass, dicts are re-validated, everything else raises
`ValidationError`. -/
def asOptItinerary : PyRaw → Except String (Option Itinerary)
  | .pnone => .ok none
  | .model (.itin it) => .ok (some it)
  | .pdict d => (validateItinerary d).map some
  | .pjson (.jobj d) => (validateItinerary d).map some
  | _ => .error "ValidationError: Itinerary field of TravelPlan"

/-- Pydantic validation of the `local_recommendations` field of `TravelPlan`. -/
def asOptLocals : PyRaw → Except String (Option LocalRecommendations)
  | .pnone => .ok none
  | .model (.locals lr) => .ok (some lr)
  | .pdict d => (validateLocalRecommendations d).map some
  | .pjson (.jobj d) => (validateLocalRecommendations d).map some
  | _ => .error "ValidationError: LocalRecommendations field of TravelPlan"

/-- Python `str()` of a JSON-decoded value as interpolated into the
rejection message (approximate rendering for numbers and containers; the
claims rely only on the fixed prefix of the message). -/
def pyToString : JVal → String
  | .jstr s => s
  | .jnull => "None"
  | .jbool true => "True"
  | .jbool false => "False"
  | .jnum q => if q.den = 1 then toString q.num else toString q
  | v => toString (repr v)

/-- The booking request built after an approval (worker.py lines 456-462). -/
def bookingRequestOf (env : Env) (top : DestinationRecommendation) (i : PyRaw)
    (comments : JVal) : Except String BookingReq := do
  let ec ← condAttrItin i (fun it => it.estimated_total_cost) "TBD"
  let td ← condAttrItin i (fun it => it.travel_dates) "TBD"
  return ⟨top.destination_name, ec, td, env.req.user_name, comments⟩

/-- The final result of the approved branch (worker.py lines 466-488). -/
def bookedResult (env : Env) (dests : DestinationRecommendations)
    (top : DestinationRecommendation) (i l : PyRaw)
    (rdict : List (String × String)) : Except String TravelPlanResult := do
  let att ← condAttrLocals l (fun lr => lr.attractions) []
  let res ← condAttrLocals l (fun lr => lr.restaurants) []
  let tips ← condAttrLocals l (fun lr => lr.insider_tips) ""
  let oi ← asOptItinerary i
  let ol ← asOptLocals l
  let plan : TravelPlan := ⟨some dests, oi, ol, att, res, tips⟩
  let conf := "Booking confirmed for your trip to " ++ top.destination_name
    ++ "! Confirmation ID: " ++ ((rdict.reverse.lookup "booking_id").getD "N/A")
  return ⟨some plan, some (validateBookingResult rdict), conf,
    "https://example.com/booking/" ++ env.iid⟩

/-- The result of the rejected branch (worker.py lines 497-505). -/
def rejectedResult (dests : DestinationRecommendations) (i l : PyRaw)
    (comments : JVal) : Except String TravelPlanResult := do
  let oi ← asOptItinerary i
  let ol ← asOptLocals l
  let plan : TravelPlan := ⟨some dests, oi, ol, [], [], ""⟩
  return ⟨some plan, none, "Travel plan was not approved. Comments: " ++ pyToString comments, ""⟩

/-- The result of the timeout branch (worker.py lines 509-517). -/
def timeoutResult (dests : DestinationRecommendations) (i l : PyRaw) :
    Except String TravelPlanResult := do
  let oi ← asOptItinerary i
  let ol ← asOptLocals l
  let plan : TravelPlan := ⟨some dests, oi, ol, [], [], ""⟩
  return ⟨some plan, none, "Travel plan timed out waiting for approval.", ""⟩

/-- Wrap a result construction: a raised validation or attribute error is
caught by the orchestration's `except` handler and returned as an error dict. -/
def toDone : Except String TravelPlanResult → OrchState
  | .ok r => .done (.result r)
  | .error e => .done (.errorDict e)

/-- Resolution of the approval event data (worker.py lines 436-447): a string
payload is JSON-decoded with an `Invalid approval format` fallback; `.get`
on a non-dict raises and is caught by the `except` handler. -/
def stepWait (env : Env) (dests : DestinationRecommendations)
    (top : DestinationRecommendation) (i l : PyRaw) (evs : List RaceEv) : OrchState :=
  match raceWinner evs with
  | none => .divergent
  | some ⟨_, .timerFired⟩ => toDone (timeoutResult dests i l)
  | some ⟨_, .approval d⟩ =>
    let ar : JVal :=
      match d with
      | .jstr s =>
        (match jsonLoads s with
         | .ok v => v
         | .error _ => .jobj [("approved", .jbool false), ("comments", .jstr "Invalid approval format")])
      | v => v
    match ar with
    | .jobj ad =>
      if jtruthy ((jget ad "approved").getD (.jbool false)) then
        match bookingRequestOf env top i ((jget ad "comments").getD (.jstr "")) with
        | .error e => .done (.errorDict e)
        | .ok breq => .stBook dests top i l breq
      else
        toDone (rejectedResult dests i l ((jget ad "comments").getD (.jstr "No comments provided")))
    | _ => .done (.errorDict "AttributeError: get")

/-- Resume the suspended orchestration with one recorded outcome and run it
to the next suspension point, return, or escaping error. -/
def stepState (env : Env) : OrchState → HEntry → OrchState
  | .stDest, ⟨_, o⟩ =>
    (match o with
     | .failure e => .done (.errorDict e)
     | .agent r =>
       (match parse_agent_response destClass r with
        | .error e => .done (.errorDict e)
        | .ok praw =>
          if !praw.truthy then .done (.errorDict "No destinations found")
          else
            match praw with
            | .model (.dest d) =>
              (match d.recommendations with
               | [] => .done (.errorDict "No destinations found")
               | top :: _ => .stItin d top)
            | _ => .done (.errorDict "AttributeError: recommendations"))
     | _ => .divergent)
  | .stItin dests top, ⟨_, o⟩ =>
    (match o with
     | .failure e => .done (.errorDict e)
     | .agent r =>
       (match parse_agent_response itinClass r with
        | .error e => .done (.errorDict e)
        | .ok praw => .stLocal dests top praw)
     | _ => .divergent)
  | .stLocal dests top i, ⟨ts, o⟩ =>
    (match o with
     | .failure e => .done (.errorDict e)
     | .agent r =>
       (match parse_agent_response localsClass r with
        | .error e => .done (.errorDict e)
        | .ok locs =>
          match waitStatusCheck i locs with
          | .error e => .done (.errorDict e)
          | .ok _ => .stWait dests top i locs ts)
     | _ => .divergent)
  | .stWait dests top i l _, ⟨_, o⟩ =>
    (match o with
     | .failure e => .done (.errorDict e)
     | .race evs => stepWait env dests top i l evs
     | _ => .divergent)
  | .stBook dests top i l _, ⟨_, o⟩ =>
    (match o with
     | .failure e => .done (.errorDict e)
     | .activityDone rdict => toDone (bookedResult env dests top i l rdict)
     | _ => .divergent)
  | .done out, _ => .done out
  | .divergent, _ => .divergent

/-- The scheduling requests pending at a suspension point: what the
orchestration newly asks the engine to start when it suspends there.
Terminal states request nothing. -/
def pendingReqs (env : Env) : OrchState → List SchedReq
  | .stDest => [.agentRun "DestinationRecommenderAgent" (destinationPrompt env.req)]
  | .stItin _ top => [.agentRun "ItineraryPlannerAgent" (itineraryPrompt env.req top.destination_name)]
  | .stLocal _ top _ => [.agentRun "LocalRecommendationsAgent" (localPrompt env.req top.destination_name)]
  | .stWait _ _ _ _ now => [.waitExternal "ApprovalEvent", .timer (now + 86400)]
  | .stBook _ _ _ _ breq => [.activity "book_trip" breq]
  | .done _ => []
  | .divergent => []

/-- Run the orchestration from a suspension point through a sequence of
recorded outcomes. -/
def runFrom (env : Env) : OrchState → List HEntry → OrchState
  | s, [] => s
  | s, e :: es => runFrom env (stepState env s e) es

/-- The full sequence of scheduling requests a single replay against the
given history produces, in order: the requests resolved from recorded
outcomes during fast-forward followed by the requests newly pending at the
final suspension point. -/
def trace (env : Env) : OrchState → List HEntry → List SchedReq
  | s, [] => pendingReqs env s
  | s, e :: es =>
    match pendingReqs env s with
    | [] => []
    | rs => rs ++ trace env (stepState env s e) es

/-- The scheduling requests already resolved by recorded outcomes (the
fast-forwarded part of a replay), without the final pending requests. -/
def consumedReqs (env : Env) : OrchState → List HEntry → List SchedReq
  | _, [] => []
  | s, e :: es =>
    match pendingReqs env s with
    | [] => []
    | rs => rs ++ consumedReqs env (stepState env s e) es

/-- Modelled from the spec: the Replay Engine's dispatch rule (§4.2, absent
from src/ — it lives in the durabletask library).  The scheduler appends one
completion event at a time; after each append it replays the orchestration
against the full history and dispatches only the requests newly pending at
the end of that replay, never the fast-forwarded ones.  This is the
cumulative list of everything dispatched over such an incremental run. -/
def engineDispatches (env : Env) : OrchState → List HEntry → List SchedReq
  | s, [] => pendingReqs env s
  | s, e :: es => pendingReqs env s ++ engineDispatches env (stepState env s e) es

def isBookReq : SchedReq → Bool
  | .activity nm _ => nm == "book_trip"
  | _ => false

/-- How many `book_trip` activity calls a request list contains. -/
def countBook (rs : List SchedReq) : Nat := rs.countP isBookReq

/-- The terminal status of an orchestration instance. -/
inductive RunStatus : Type
  | completed : OrchOutput → RunStatus
  | failed : String → RunStatus
  | running : RunStatus
  deriving Repr, Inhabited

/-- Modelled from the spec: the Orchestration Scheduler's terminal
transitions (§4.3, §7, absent from src/): a value returned by the
orchestration function completes the instance, an error escaping it
terminates the instance in Failed with the error serialized as output.
The orchestration body's own failure points are transcribed from worker.py:
`TravelRequest(**input_data)` (line 311) runs before the `try` block, so its
validation error escapes; every error after it is caught by the `except`
handler and returned as a normal error dict; a non-dict input skips
validation and fails on the first attribute access inside the `try`. -/
def runInstance (iid : String) (input : JVal) (h : List HEntry) : RunStatus :=
  match input with
  | .jobj d =>
    (match validateTravelRequest d with
     | .error e => .failed e
     | .ok req =>
       match runFrom ⟨req, iid⟩ .stDest h with
       | .done o => .completed o
       | _ => .running)
  | _ => .completed (.errorDict "AttributeError: user_name")

/-- Transcription of the `book_trip` activity (worker.py lines 532-555); the
random booking id is historized by passing the draw explicitly. -/
def book_trip (randId : Nat) (request : List (String × String)) : List (String × String) :=
  let get (k dflt : String) : String := (request.reverse.lookup k).getD dflt
  let destination := get "destination_name" "Unknown"
  let estimated_cost := get "estimated_cost" "TBD"
  let booking_id := "TRV-" ++ toString randId
  [("booking_id", booking_id), ("status", "confirmed"), ("destination", destination),
   ("total_cost", estimated_cost), ("confirmation_number", booking_id),
   ("booking_date", "2025-08-07"),
   ("message", "Trip to " ++ destination ++ " successfully booked!"),
   ("next_steps", "You will receive confirmation emails shortly with detailed itinerary and vouchers.")]

/-! ### Currency converter (`tools/currency_converter.py`, Container Apps)

Rates are floats in the source; they are embedded as rationals (the claims
concern sign, the identity cases and the ratio formula, none of which
depend on floating-point rounding, and the concrete magnitudes involved
stay far from overflow or underflow). -/

def _FALLBACK_RATES : List (String × ℚ) :=
  [("USD", 1), ("EUR", 92/100), ("GBP", 79/100), ("JPY", 14950/100),
   ("CAD", 136/100), ("AUD", 153/100), ("CHF", 88/100), ("CNY", 724/100),
   ("INR", 8312/100), ("MXN", 1715/100), ("BRL", 497/100), ("KRW", 1320),
   ("SGD", 134/100), ("HKD", 782/100), ("NOK", 1085/100), ("SEK", 1042/100),
   ("DKK", 687/100), ("NZD", 164/100), ("ZAR", 1865/100), ("THB", 3550/100)]

def fallbackRate (c : String) : Option ℚ := _FALLBACK_RATES.lookup c

/-- Transcription of `get_exchange_rate` (currency_converter.py lines 38-64). -/
def get_exchange_rate (from_currency to_currency : String) : ℚ :=
  let fc := strUpper from_currency
  let tc := strUpper to_currency
  if fc = tc then 1
  else
    match fallbackRate fc, fallbackRate tc with
    | some from_rate, some to_rate => to_rate / from_rate
    | _, _ => 1

/-! ### HTTP endpoints

The durable-task client the handlers call (`get_orchestration_state`,
`raise_orchestration_event`, `get_status`, `raise_event`) is the library
boundary; it is passed in as a function argument so that the handlers'
observable behaviour is transcribed from src/ alone. -/

/-- Substring containment, modelling Python's `in` on strings. -/
def containsSub (s pat : String) : Bool := (splitFirst s pat).isSome

/-- The `get_orchestration_state` snapshot the Container Apps status
handler reads (app.py lines 277-306). -/
structure OrchestrationState where
  runtime_status : String
  serialized_custom_status : Option String
  serialized_output : Option String
  deriving Repr, Inhabited

/-- Response model of the Container Apps status endpoint (app.py
lines 185-195); fields kept as JSON values. -/
structure WorkflowStatusResponse where
  id : String
  step : JVal
  message : Option JVal
  progress : Option JVal
  destination : Option JVal
  itinerary : Option JVal
  finalPlan : Option String
  documentUrl : Option JVal
  travelPlan : Option JVal
  deriving Repr, Inhabited

/-- Transcription of `get_travel_status` (app.py lines 265-334); a raised
`HTTPException` is the `(status_code, detail)` error case. -/
def get_travel_status (lookup : String → Option OrchestrationState)
    (instance_id : String) : Except (Nat × String) WorkflowStatusResponse :=
  match lookup instance_id with
  | none => .error (404, "Orchestration " ++ instance_id ++ " not found")
  | some state =>
    let cv : JVal :=
      match state.serialized_custom_status with
      | none => .jobj []
      | some s =>
        if s.data.isEmpty then .jobj []
        else
          match jsonLoads s with
          | .ok v => v
          | .error _ => .jobj []
    match cv with
    | .jobj cd =>
      let step := (jget cd "step").getD (.jstr "Starting")
      let message := (jget cd "message").getD (.jstr "Processing your travel plan...")
      let progress := (jget cd "progress").getD (.jnum 10)
      let destination := jget cd "destination"
      let itinerary := jget cd "itinerary"
      let travel_plan := jget cd "travelPlan"
      let rs := state.runtime_status
      if containsSub rs "COMPLETED" then
        .ok ⟨instance_id, .jstr "Completed", some message, some (.jnum 100), destination,
          itinerary, some ((state.serialized_output).getD "None"), jget cd "documentUrl", travel_plan⟩
      else if containsSub rs "FAILED" then
        .ok ⟨instance_id, .jstr "Error", some (.jstr "An error occurred during travel planning"),
          some progress, destination, itinerary, none, jget cd "documentUrl", travel_plan⟩
      else if containsSub rs "SUSPENDED" then
        .ok ⟨instance_id, .jstr "WaitingForApproval", some message, some (.jnum 100), destination,
          itinerary, none, jget cd "documentUrl", travel_plan⟩
      else
        .ok ⟨instance_id, step, some message, some progress, destination, itinerary, none,
          jget cd "documentUrl", travel_plan⟩
    | _ => .error (500, "Failed to get travel status: AttributeError: get")

/-- Response model of the Container Apps approval endpoints (app.py
lines 198-202). -/
structure ApprovalResponse where
  id : String
  action : String
  message : String
  deriving Repr, DecidableEq, Inhabited

/-- Transcription of the Container Apps `approve_travel_plan` (app.py lines
337-371): no status check — the event is raised directly, and any client
failure is converted to a 500 response by the blanket handler. -/
def approve_travel_plan (raiseEvent : String → String → JVal → Except String Unit)
    (instance_id : String) (now_iso : String) : Except (Nat × String) ApprovalResponse :=
  match raiseEvent instance_id "ApprovalEvent"
      (.jobj [("approved", .jbool true), ("timestamp", .jstr now_iso)]) with
  | .ok _ => .ok ⟨instance_id, "approved",
      "Travel plan has been approved. The workflow will continue processing."⟩
  | .error e => .error (500, "Failed to process approval: " ++ e)

/-- Transcription of the Container Apps `reject_travel_plan` (app.py lines
374-407). -/
def reject_travel_plan (raiseEvent : String → String → JVal → Except String Unit)
    (instance_id : String) (now_iso : String) : Except (Nat × String) ApprovalResponse :=
  match raiseEvent instance_id "ApprovalEvent"
      (.jobj [("approved", .jbool false), ("timestamp", .jstr now_iso)]) with
  | .ok _ => .ok ⟨instance_id, "rejected", "Travel plan has been rejected."⟩
  | .error e => .error (500, "Failed to process rejection: " ++ e)

/-- A plain HTTP response as built by the Azure Functions handlers. -/
structure HttpResponse where
  status : Nat
  body : JVal
  deriving Repr, Inhabited

/-- The `get_status` snapshot the Functions handlers read. -/
structure FnStatus where
  instance_id : String
  runtime_status_name : String
  output : JVal
  custom_status : JVal
  deriving Repr, Inhabited

/-- Transcription of `get_travel_planning_status` (function_app.py lines
477-512). -/
def get_travel_planning_status (getStatus : String → Option FnStatus)
    (instance_id : String) : HttpResponse :=
  match getStatus instance_id with
  | none => ⟨404, .jobj [("error", .jstr "Orchestration not found")]⟩
  | some st =>
    ⟨200, .jobj [("id", .jstr st.instance_id), ("runtimeStatus", .jstr st.runtime_status_name),
      ("output", st.output), ("customStatus", st.custom_status)]⟩

/-- Transcription of the Azure Functions `approve_travel_plan`
(function_app.py lines 515-558), named apart from the Container Apps
handler: looked-up status of `None` yields 404, a status outside
Running/Pending/Suspended yields a 400 invalid-state error, and only
otherwise is the event raised. -/
def fn_approve_travel_plan (getStatus : String → Option FnStatus)
    (raiseEvent : String → String → JVal → Except String Unit)
    (instance_id : String) (req_body : JVal) : HttpResponse :=
  match getStatus instance_id with
  | none => ⟨404, .jobj [("error", .jstr "Travel plan not found")]⟩
  | some st =>
    if st.runtime_status_name == "Running" || st.runtime_status_name == "Pending"
        || st.runtime_status_name == "Suspended" then
      match raiseEvent instance_id "ApprovalEvent" req_body with
      | .ok _ => ⟨200, .jobj [("message", .jstr "Approval processed")]⟩
      | .error e => ⟨500, .jobj [("error", .jstr e)]⟩
    else
      ⟨400, .jobj [("error", .jstr ("Travel plan is no longer active (status: "
          ++ st.runtime_status_name ++ ")")),
        ("status", .jstr st.runtime_status_name)]⟩

/-! ### Infrastructure lemmas about the replay machine -/

def isTerminal : OrchState → Bool
  | .done _ => true
  | .divergent => true
  | _ => false

def isBookState : OrchState → Bool
  | .stBook _ _ _ _ _ => true
  | _ => false

lemma stepState_terminal (env : Env) (s : OrchState) (e : HEntry)
    (h : isTerminal s = true) : stepState env s e = s := by
  cases s <;> simp_all [isTerminal, stepState]

lemma pendingReqs_terminal (env : Env) (s : OrchState)
    (h : isTerminal s = true) : pendingReqs env s = [] := by
  cases s <;> simp_all [isTerminal, pendingReqs]

lemma pendingReqs_eq_nil (env : Env) (s : OrchState) :
    pendingReqs env s = [] ↔ isTerminal s = true := by
  cases s <;> simp [isTerminal, pendingReqs]

lemma runFrom_terminal (env : Env) (s : OrchState) (h : List HEntry)
    (ht : isTerminal s = true) : runFrom env s h = s := by
  induction h generalizing s with
  | nil => rfl
  | cons e es ih =>
    rw [runFrom, stepState_terminal env s e ht]
    exact ih s ht

lemma runFrom_append (env : Env) (s : OrchState) (h t : List HEntry) :
    runFrom env s (h ++ t) = runFrom env (runFrom env s h) t := by
  induction h generalizing s with
  | nil => rfl
  | cons e es ih => rw [List.cons_append, runFrom, runFrom, ih]

lemma trace_terminal (env : Env) (s : OrchState) (h : List HEntry)
    (ht : isTerminal s = true) : trace env s h = [] := by
  cases h with
  | nil => simp [trace, pendingReqs_terminal env s ht]
  | cons e es => rw [trace, pendingReqs_terminal env s ht]

lemma consumedReqs_terminal (env : Env) (s : OrchState) (h : List HEntry)
    (ht : isTerminal s = true) : consumedReqs env s h = [] := by
  cases h with
  | nil => rfl
  | cons e es => rw [consumedReqs, pendingReqs_terminal env s ht]

/-- A single replay's request trace is the fast-forwarded part followed by
the requests pending at the final suspension point. -/
lemma trace_eq_consumed_append_pending (env : Env) (s : OrchState) (h : List HEntry) :
    trace env s h = consumedReqs env s h ++ pendingReqs env (runFrom env s h) := by
  induction h generalizing s with
  | nil => simp [trace, consumedReqs, runFrom]
  | cons e es ih =>
    by_cases hp : pendingReqs env s = []
    · have ht : isTerminal s = true := (pendingReqs_eq_nil env s).mp hp
      rw [trace, consumedReqs, hp]
      simp [runFrom, stepState_terminal env s e ht, runFrom_terminal env s es ht, hp]
    · rw [trace, consumedReqs, runFrom]
      cases hps : pendingReqs env s with
      | nil => exact absurd hps hp
      | cons r rs => rw [ih (stepState env s e), List.append_assoc]

/-- Fast-forwarding decomposes over history concatenation. -/
lemma consumedReqs_append (env : Env) (s : OrchState) (h t : List HEntry) :
    consumedReqs env s (h ++ t)
      = consumedReqs env s h ++ consumedReqs env (runFrom env s h) t := by
  induction h generalizing s with
  | nil => simp [consumedReqs, runFrom]
  | cons e es ih =>
    by_cases hp : pendingReqs env s = []
    · have ht : isTerminal s = true := (pendingReqs_eq_nil env s).mp hp
      rw [List.cons_append, consumedReqs, consumedReqs, hp]
      simp [runFrom, stepState_terminal env s e ht, runFrom_terminal env s es ht,
        consumedReqs_terminal env s t ht]
    · rw [List.cons_append, consumedReqs, consumedReqs, runFrom]
      cases hps : pendingReqs env s with
      | nil => exact absurd hps hp
      | cons r rs => rw [ih (stepState env s e), List.append_assoc]

/-- Replaying against an extended history reproduces the shorter replay's
requests verbatim as a prefix. -/
lemma trace_mono (env : Env) (s : OrchState) (h t : List HEntry) :
    trace env s h <+: trace env s (h ++ t) := by
  rw [trace_eq_consumed_append_pending, trace_eq_consumed_append_pending,
    consumedReqs_append, runFrom_append, List.append_assoc]
  refine (List.prefix_append_right_inj (consumedReqs env s h)).mpr ?_
  set fin := runFrom env s h with hfin
  cases t with
  | nil => simp [consumedReqs, runFrom]
  | cons e es =>
    by_cases hp : pendingReqs env fin = []
    · simp [hp]
    · rw [consumedReqs]
      cases hps : pendingReqs env fin with
      | nil => exact absurd hps hp
      | cons r rs =>
        show r :: rs <+: ((r :: rs) ++ consumedReqs env (stepState env fin e) es)
          ++ pendingReqs env (runFrom env fin (e :: es))
        rw [List.append_assoc]
        exact List.prefix_append _ _

/-- Once terminal, the incremental engine dispatches nothing further. -/
lemma engineDispatches_terminal (env : Env) (s : OrchState) (h : List HEntry)
    (ht : isTerminal s = true) : engineDispatches env s h = [] := by
  induction h generalizing s with
  | nil => simp [engineDispatches, pendingReqs_terminal env s ht]
  | cons e es ih =>
    rw [engineDispatches, pendingReqs_terminal env s ht,
      stepState_terminal env s e ht, ih s ht]
    rfl

/-- The incremental engine's cumulative dispatches coincide with the single
replay's request trace: every scheduling event is dispatched exactly once,
when it is first created, never during fast-forward. -/
lemma engineDispatches_eq_trace (env : Env) (s : OrchState) (h : List HEntry) :
    engineDispatches env s h = trace env s h := by
  induction h generalizing s with
  | nil => rfl
  | cons e es ih =>
    by_cases hp : pendingReqs env s = []
    · have ht : isTerminal s = true := (pendingReqs_eq_nil env s).mp hp
      rw [engineDispatches, trace, hp, stepState_terminal env s e ht,
        engineDispatches_terminal env s es ht]
      rfl
    · rw [engineDispatches, trace, ih (stepState env s e)]
      cases hps : pendingReqs env s with
      | nil => exact absurd hps hp
      | cons r rs => rfl

lemma countBook_append (a b : List SchedReq) :
    countBook (a ++ b) = countBook a + countBook b :=
  List.countP_append _ _ _

/-- Of all suspension points, only the booking one requests the `book_trip`
activity, and it requests it exactly once. -/
lemma countBook_pendingReqs (env : Env) (s : OrchState) :
    countBook (pendingReqs env s) = if isBookState s then 1 else 0 := by
  cases s <;> simp [pendingReqs, countBook, isBookState, isBookReq]

lemma toDone_terminal (x : Except String TravelPlanResult) :
    isTerminal (toDone x) = true := by
  cases x <;> rfl

/-- Resuming the suspension point that scheduled the booking always ends the
orchestration: it returns or raises either way. -/
lemma stepState_book_terminal (env : Env) (s : OrchState) (e : HEntry)
    (hb : isBookState s = true) : isTerminal (stepState env s e) = true := by
  cases s with
  | stBook d top i l b =>
    obtain ⟨ts, o⟩ := e
    cases o with
    | agent r => rfl
    | race evs => rfl
    | activityDone rdict => exact toDone_terminal _
    | failure e => rfl
  | _ => simp_all [isBookState]

/-- The orchestration never requests the `book_trip` activity twice in one
replay. -/
lemma trace_countBook_le_one (env : Env) (s : OrchState) (h : List HEntry) :
    countBook (trace env s h) ≤ 1 := by
  induction h generalizing s with
  | nil =>
    rw [trace, countBook_pendingReqs]
    split <;> simp
  | cons e es ih =>
    by_cases hp : pendingReqs env s = []
    · rw [trace, hp]; simp [countBook]
    · rw [trace]
      cases hps : pendingReqs env s with
      | nil => exact absurd hps hp
      | cons r rs =>
        show countBook ((r :: rs) ++ trace env (stepState env s e) es) ≤ 1
        rw [countBook_append, ← hps]
        by_cases hb : isBookState s = true
        · have ht := stepState_book_terminal env s e hb
          rw [trace_terminal env _ es ht, countBook_pendingReqs, if_pos hb]
          simp [countBook]
        · rw [countBook_pendingReqs, if_neg hb]
          simpa using ih (stepState env s e)

/-- A replay that ends suspended at the approval wait has not requested the
`book_trip` activity. -/
lemma trace_countBook_of_wait (env : Env) (s : OrchState) (h : List HEntry)
    (d : DestinationRecommendations) (top : DestinationRecommendation)
    (i l : PyRaw) (n : Nat)
    (hfin : runFrom env s h = .stWait d top i l n) :
    countBook (trace env s h) = 0 := by
  induction h generalizing s with
  | nil =>
    rw [runFrom] at hfin
    subst hfin
    simp [trace, countBook_pendingReqs, isBookState]
  | cons e es ih =>
    rw [runFrom] at hfin
    by_cases hp : pendingReqs env s = []
    · rw [trace, hp]; simp [countBook]
    · rw [trace]
      cases hps : pendingReqs env s with
      | nil => exact absurd hps hp
      | cons r rs =>
        show countBook ((r :: rs) ++ trace env (stepState env s e) es) = 0
        rw [countBook_append, ← hps]
        by_cases hb : isBookState s = true
        · have ht := stepState_book_terminal env s e hb
          rw [runFrom_terminal env _ es ht] at hfin
          rw [hfin] at ht
          simp [isTerminal] at ht
        · rw [countBook_pendingReqs, if_neg hb, ih (stepState env s e) hfin]

/-- A replay that ends suspended at the booking activity has requested the
`book_trip` activity exactly once. -/
lemma trace_countBook_of_book (env : Env) (s : OrchState) (h : List HEntry)
    (d : DestinationRecommendations) (top : DestinationRecommendation)
    (i l : PyRaw) (b : BookingReq)
    (hfin : runFrom env s h = .stBook d top i l b) :
    countBook (trace env s h) = 1 := by
  induction h generalizing s with
  | nil =>
    rw [runFrom] at hfin
    subst hfin
    simp [trace, countBook_pendingReqs, isBookState]
  | cons e es ih =>
    rw [runFrom] at hfin
    by_cases hp : pendingReqs env s = []
    · have ht : isTerminal s = true := (pendingReqs_eq_nil env s).mp hp
      rw [stepState_terminal env s e ht, runFrom_terminal env s es ht] at hfin
      rw [hfin] at ht
      simp [isTerminal] at ht
    · rw [trace]
      cases hps : pendingReqs env s with
      | nil => exact absurd hps hp
      | cons r rs =>
        show countBook ((r :: rs) ++ trace env (stepState env s e) es) = 1
        rw [countBook_append, ← hps]
        by_cases hb : isBookState s = true
        · have ht := stepState_book_terminal env s e hb
          rw [runFrom_terminal env _ es ht] at hfin
          rw [hfin] at ht
          simp [isTerminal] at ht
        · rw [countBook_pendingReqs, if_neg hb, ih (stepState env s e) hfin]

/-! ### Race-winner lemmas -/

/-- Appending one completion event to the race history combines with the
previous winner by sequence number, earlier appends winning ties. -/
lemma raceWinner_append_one (xs : List RaceEv) (y : RaceEv) :
    raceWinner (xs ++ [y]) =
      some (match raceWinner xs with
            | none => y
            | some w => if y.seq < w.seq then y else w) := by
  induction xs with
  | nil => rfl
  | cons a xs' ih =>
    rw [List.cons_append, raceWinner, ih]
    cases hx : raceWinner xs' with
    | none =>
      cases xs' with
      | nil => rfl
      | cons b bs => rw [raceWinner] at hx; cases hb : raceWinner bs <;> simp [hb] at hx
    | some w =>
      rw [raceWinner, hx]
      by_cases h1 : y.seq < w.seq <;> by_cases h2 : w.seq < a.seq <;>
        by_cases h3 : y.seq < a.seq <;>
        simp [h1, h2, h3] <;>
        first | rfl | omega

/-- A losing completion appended after the race is decided does not change
the winner. -/
lemma raceWinner_late_loser (evs : List RaceEv) (late w : RaceEv)
    (hw : raceWinner evs = some w) (hl : w.seq < late.seq) :
    raceWinner (evs ++ [late]) = some w := by
  rw [raceWinner_append_one, hw]
  simp only [if_neg (by omega : ¬ late.seq < w.seq)]

/-- The race resolution depends on the history only through the winner. -/
lemma stepWait_congr (env : Env) (d : DestinationRecommendations)
    (top : DestinationRecommendation) (i l : PyRaw) (evs evs' : List RaceEv)
    (h : raceWinner evs = raceWinner evs') :
    stepWait env d top i l evs = stepWait env d top i l evs' := by
  unfold stepWait
  rw [h]

/-! ### Auxiliary facts for the currency claims -/

lemma lookup_pos_of_all_pos (l : List (String × ℚ)) (hl : ∀ p ∈ l, 0 < p.2)
    (c : String) (r : ℚ) (h : l.lookup c = some r) : 0 < r := by
  induction l with
  | nil => simp [List.lookup] at h
  | cons p ps ih =>
    obtain ⟨k, v⟩ := p
    rw [List.lookup] at h
    cases hkc : (c == k) with
    | true =>
      rw [hkc] at h
      simp only [Option.some.injEq] at h
      exact h ▸ hl (k, v) (List.mem_cons_self _ _)
    | false =>
      rw [hkc] at h
      exact ih (fun p hp => hl p (List.mem_cons_of_mem _ hp)) h

lemma fallbackRate_pos (c : String) (r : ℚ) (h : fallbackRate c = some r) : 0 < r := by
  refine lookup_pos_of_all_pos _FALLBACK_RATES ?_ c r h
  intro p hp
  fin_cases hp <;> norm_num

/-- C10: the Container Apps `get_exchange_rate` returns a strictly positive
rate; it returns exactly 1 when the two codes agree after uppercasing or when
either uppercased code is absent from the fallback table, and otherwise the
target currency's fallback rate divided by the source currency's. -/
theorem C10_get_exchange_rate_spec (from_currency to_currency : String) :
    0 < get_exchange_rate from_currency to_currency
  ∧ (strUpper from_currency = strUpper to_currency →
      get_exchange_rate from_currency to_currency = 1)
  ∧ ((fallbackRate (strUpper from_currency) = none ∨ fallbackRate (strUpper to_currency) = none) →
      get_exchange_rate from_currency to_currency = 1)
  ∧ (∀ from_rate to_rate, fallbackRate (strUpper from_currency) = some from_rate →
      fallbackRate (strUpper to_currency) = some to_rate →
      strUpper from_currency ≠ strUpper to_currency →
      get_exchange_rate from_currency to_currency = to_rate / from_rate) := by
  unfold get_exchange_rate
  by_cases heq : strUpper from_currency = strUpper to_currency
  · refine ⟨?_, fun _ => by simp [heq], fun _ => by simp [heq], fun fr tr _ _ hne => absurd heq hne⟩
    simp [heq]
  · refine ⟨?_, fun h => absurd h heq, fun h => ?_, fun fr tr hf ht _ => ?_⟩
    · rw [if_neg heq]
      cases hf : fallbackRate (strUpper from_currency) with
      | none => simp [hf]
      | some fr =>
        cases ht : fallbackRate (strUpper to_currency) with
        | none => simp [hf, ht]
        | some tr =>
          simp only [hf, ht]
          exact div_pos (fallbackRate_pos _ tr ht) (fallbackRate_pos _ fr hf)
    · rw [if_neg heq]
      rcases h with h | h <;> rw [h] <;>
        first
        | rfl
        | (cases hf : fallbackRate (strUpper from_currency) <;> simp [hf])
    · rw [if_neg heq, hf, ht]

/-- Witness for C10 at concrete currency codes: a same-currency pair, an
unknown code, a cross-rate, and positivity. -/
theorem C10_witness :
    get_exchange_rate "usd" "USD" = 1
  ∧ get_exchange_rate "USD" "XYZ" = 1
  ∧ get_exchange_rate "USD" "EUR" = 92 / 100
  ∧ 0 < get_exchange_rate "EUR" "JPY" := by
  refine ⟨(C10_get_exchange_rate_spec "usd" "USD").2.1 (by decide),
    (C10_get_exchange_rate_spec "USD" "XYZ").2.2.1 (Or.inr rfl), ?_,
    (C10_get_exchange_rate_spec "EUR" "JPY").1⟩
  have h := (C10_get_exchange_rate_spec "USD" "EUR").2.2.2 1 (92 / 100)
    rfl rfl (by decide)
  rw [h]
  norm_num

/-- C7: a status query for an instance id that names no orchestration yields
a 404 with a not-found error body, in both the Container Apps handler and
the Azure Functions handler. -/
theorem C7_unknown_instance_not_found
    (lookup : String → Option OrchestrationState) (getStatus : String → Option FnStatus)
    (iid : String) (h1 : lookup iid = none) (h2 : getStatus iid = none) :
    get_travel_status lookup iid = .error (404, "Orchestration " ++ iid ++ " not found")
  ∧ get_travel_planning_status getStatus iid
      = ⟨404, .jobj [("error", .jstr "Orchestration not found")]⟩ := by
  constructor
  · unfold get_travel_status
    rw [h1]
  · unfold get_travel_planning_status
    rw [h2]

/-- Witness for C7 on an empty instance store. -/
theorem C7_witness :
    get_travel_status (fun _ => none) "does-not-exist"
      = .error (404, "Orchestration does-not-exist not found")
  ∧ get_travel_planning_status (fun _ => none) "does-not-exist"
      = ⟨404, .jobj [("error", .jstr "Orchestration not found")]⟩ := by
  have h := C7_unknown_instance_not_found (fun _ => none) (fun _ => none)
    "does-not-exist" rfl rfl
  exact ⟨h.1, h.2⟩

/-- C5: an orchestration-input dict that fails `TravelRequest` validation
raises before the `try` block, so the error escapes the orchestration
function unhandled and the instance terminates Failed with that error as
output, whatever the history. -/
theorem C5_unhandled_error_terminates_failed (iid : String)
    (d : List (String × JVal)) (e : String) (h : List HEntry)
    (hv : validateTravelRequest d = .error e) :
    runInstance iid (.jobj d) h = .failed e := by
  simp only [runInstance]
  rw [hv]

/-- Witness for C5: a request whose `durationInDays` is not a number fails
validation and the instance is Failed with the serialized error. -/
theorem C5_witness :
    runInstance "inst-9" (.jobj [("durationInDays", .jstr "soon")]) []
      = .failed "ValidationError: int expected" :=
  C5_unhandled_error_terminates_failed "inst-9" _ _ [] (by rfl)

/-- Did `try_parse_value` short-circuit the helper (attribute present and
returning non-`None`)? -/
def tpShort (r : AgentRes) : Bool :=
  match r.tryParse with
  | some (some _) => true
  | _ => false

lemma parse_eq_parseRawText (validate : List (String × JVal) → Except String MVal)
    (r : AgentRes) (h : tpShort r = false) :
    parse_agent_response validate r = parseRawText validate (extractRaw r) := by
  unfold parse_agent_response
  cases htp : r.tryParse with
  | none => rfl
  | some o =>
    cases o with
    | none => rfl
    | some m =>
      unfold tpShort at h
      rw [htp] at h
      simp at h

/-- C9: `parse_agent_response` is total — every raising operation it performs
is caught, so it never propagates an exception; a string that is not valid
JSON after fence stripping yields `None`, as does a dict that fails the
target model's validation; a value that already is a model instance is
returned unchanged; and every output is a model instance, `None`, or the
(possibly JSON-decoded) raw value passed through unparsed. -/
theorem C9_parse_agent_response_total
    (validate : List (String × JVal) → Except String MVal) (r : AgentRes) :
    (∃ v, parse_agent_response validate r = .ok v)
  ∧ (∀ s msg, tpShort r = false → extractRaw r = .pstr s →
      jsonLoads (stripFence s) = .error msg →
      parse_agent_response validate r = .ok .pnone)
  ∧ (∀ d msg, tpShort r = false → extractRaw r = .pdict d → validate d = .error msg →
      parse_agent_response validate r = .ok .pnone)
  ∧ (∀ m, tpShort r = false → extractRaw r = .model m →
      parse_agent_response validate r = .ok (.model m))
  ∧ (∀ v, parse_agent_response validate r = .ok v →
      v = .pnone ∨ (∃ m, v = .model m) ∨ v = extractRaw r
        ∨ ∃ s j, extractRaw r = .pstr s ∧ jsonLoads (stripFence s) = .ok j ∧ v = pyOfJson j) := by
  refine ⟨?_, ?_, ?_, ?_, ?_⟩
  · cases htp : tpShort r with
    | true =>
      unfold tpShort at htp
      unfold parse_agent_response
      cases htr : r.tryParse with
      | none => rw [htr] at htp; simp at htp
      | some o =>
        cases o with
        | none => rw [htr] at htp; simp at htp
        | some m => exact ⟨.model m, rfl⟩
    | false =>
      rw [parse_eq_parseRawText validate r htp]
      cases hex : extractRaw r with
      | model m => exact ⟨.model m, rfl⟩
      | pstr s =>
        cases hjl : jsonLoads (stripFence s) with
        | error msg => exact ⟨.pnone, by simp [parseRawText, hjl]⟩
        | ok j =>
          cases j with
          | jobj d =>
            cases hv : validate d with
            | error msg => exact ⟨.pnone, by simp [parseRawText, hjl, hv]⟩
            | ok m => exact ⟨.model m, by simp [parseRawText, hjl, hv]⟩
          | jnull => exact ⟨pyOfJson .jnull, by simp [parseRawText, hjl]⟩
          | jbool b => exact ⟨pyOfJson (.jbool b), by simp [parseRawText, hjl]⟩
          | jnum q => exact ⟨pyOfJson (.jnum q), by simp [parseRawText, hjl]⟩
          | jstr s2 => exact ⟨pyOfJson (.jstr s2), by simp [parseRawText, hjl]⟩
          | jarr xs => exact ⟨pyOfJson (.jarr xs), by simp [parseRawText, hjl]⟩
      | pdict d =>
        cases hv : validate d with
        | error msg => exact ⟨.pnone, by simp [parseRawText, hv]⟩
        | ok m => exact ⟨.model m, by simp [parseRawText, hv]⟩
      | pnone => exact ⟨.pnone, rfl⟩
      | pjson j => exact ⟨.pjson j, rfl⟩
      | pother => exact ⟨.pother, rfl⟩
  · intro s msg htp hex hjl
    rw [parse_eq_parseRawText validate r htp, hex]
    simp [parseRawText, hjl]
  · intro d msg htp hex hv
    rw [parse_eq_parseRawText validate r htp, hex]
    simp [parseRawText, hv]
  · intro m htp hex
    rw [parse_eq_parseRawText validate r htp, hex]
    rfl
  · intro v hv
    cases htp : tpShort r with
    | true =>
      unfold tpShort at htp
      unfold parse_agent_response at hv
      cases htr : r.tryParse with
      | none => rw [htr] at htp; simp at htp
      | some o =>
        cases o with
        | none => rw [htr] at htp; simp at htp
        | some m =>
          rw [htr] at hv
          simp only [Except.ok.injEq] at hv
          exact Or.inr (Or.inl ⟨m, hv.symm⟩)
    | false =>
      rw [parse_eq_parseRawText validate r htp] at hv
      cases hex : extractRaw r with
      | model m =>
        rw [hex] at hv
        simp only [parseRawText, Except.ok.injEq] at hv
        exact Or.inr (Or.inl ⟨m, hv.symm⟩)
      | pstr s =>
        rw [hex] at hv
        cases hjl : jsonLoads (stripFence s) with
        | error msg => simp only [parseRawText, hjl, Except.ok.injEq] at hv
                       exact Or.inl hv.symm
        | ok j =>
          cases j with
          | jobj d =>
            simp only [parseRawText, hjl] at hv
            cases hval : validate d with
            | error msg =>
              rw [hval] at hv
              simp only [Except.ok.injEq] at hv
              exact Or.inl hv.symm
            | ok m =>
              rw [hval] at hv
              simp only [Except.ok.injEq] at hv
              exact Or.inr (Or.inl ⟨m, hv.symm⟩)
          | jnull =>
            simp only [parseRawText, hjl, Except.ok.injEq] at hv
            exact Or.inr (Or.inr (Or.inr ⟨s, .jnull, rfl, hjl, hv.symm⟩))
          | jbool b =>
            simp only [parseRawText, hjl, Except.ok.injEq] at hv
            exact Or.inr (Or.inr (Or.inr ⟨s, .jbool b, rfl, hjl, hv.symm⟩))
          | jnum q =>
            simp only [parseRawText, hjl, Except.ok.injEq] at hv
            exact Or.inr (Or.inr (Or.inr ⟨s, .jnum q, rfl, hjl, hv.symm⟩))
          | jstr s2 =>
            simp only [parseRawText, hjl, Except.ok.injEq] at hv
            exact Or.inr (Or.inr (Or.inr ⟨s, .jstr s2, rfl, hjl, hv.symm⟩))
          | jarr xs =>
            simp only [parseRawText, hjl, Except.ok.injEq] at hv
            exact Or.inr (Or.inr (Or.inr ⟨s, .jarr xs, rfl, hjl, hv.symm⟩))
      | pdict d =>
        rw [hex] at hv
        cases hval : validate d with
        | error msg =>
          simp only [parseRawText, hval, Except.ok.injEq] at hv
          exact Or.inl hv.symm
        | ok m =>
          simp only [parseRawText, hval, Except.ok.injEq] at hv
          exact Or.inr (Or.inl ⟨m, hv.symm⟩)
      | pnone =>
        rw [hex] at hv
        simp only [parseRawText, Except.ok.injEq] at hv
        exact Or.inl hv.symm
      | pjson j =>
        rw [hex] at hv
        simp only [parseRawText, Except.ok.injEq] at hv
        exact Or.inr (Or.inr (Or.inl hv.symm))
      | pother =>
        rw [hex] at hv
        simp only [parseRawText, Except.ok.injEq] at hv
        exact Or.inr (Or.inr (Or.inl hv.symm))

/-- Witness for C9 at concrete responses: a fenced non-JSON string returns
`None`, a dict failing `DestinationRecommendations` validation returns
`None`, and a model instance passes through unchanged. -/
theorem C9_witness :
    parse_agent_response destClass ⟨none, some (.pstr "not json"), none, .pother⟩
      = .ok .pnone
  ∧ parse_agent_response destClass
      ⟨none, some (.pdict [("Recommendations", .jstr "oops")]), none, .pother⟩
      = .ok .pnone
  ∧ parse_agent_response destClass
      ⟨none, some (.model (.itin default)), none, .pother⟩
      = .ok (.model (.itin default)) := by
  refine ⟨?_, ?_, ?_⟩
  · exact (C9_parse_agent_response_total destClass _).2.1 "not json"
      ("JSONDecodeError: not json") rfl rfl rfl
  · exact (C9_parse_agent_response_total destClass _).2.2.1
      [("Recommendations", .jstr "oops")] "ValidationError: list expected" rfl rfl rfl
  · exact (C9_parse_agent_response_total destClass _).2.2.2.1 (.itin default) rfl rfl

/-! ### Concrete run used by witnesses -/

def wReq : TravelRequest := ⟨"Alice", "beaches", 5, "3000 USD", "July 1-6", "none"⟩

def wEnv : Env := ⟨wReq, "inst-1"⟩

def wTop : DestinationRecommendation := ⟨"Paris", "City of Light", "romantic", 95⟩

def wDests : DestinationRecommendations := ⟨[wTop]⟩

def wItin : Itinerary := ⟨"Paris", "July 1-6", [], "1000 EUR", ""⟩

def wLocals : LocalRecommendations := ⟨[], [], "tips"⟩

def wDestRes : AgentRes := ⟨some (some (.dest wDests)), none, none, .pother⟩

def wItinRes : AgentRes := ⟨some (some (.itin wItin)), none, none, .pother⟩

def wLocalRes : AgentRes := ⟨some (some (.locals wLocals)), none, none, .pother⟩

def wHist3 : List HEntry :=
  [⟨100, .agent wDestRes⟩, ⟨200, .agent wItinRes⟩, ⟨300, .agent wLocalRes⟩]

def wRaceApproved : HEntry :=
  ⟨400, .race [⟨7, .approval (.jobj [("approved", .jbool true)])⟩]⟩

def wBreq : BookingReq := ⟨"Paris", "1000 EUR", "July 1-6", "Alice", .jstr ""⟩

example : runFrom wEnv .stDest wHist3
    = .stWait wDests wTop (.model (.itin wItin)) (.model (.locals wLocals)) 300 := by rfl

example : runFrom wEnv .stDest (wHist3 ++ [wRaceApproved])
    = .stBook wDests wTop (.model (.itin wItin)) (.model (.locals wLocals)) wBreq := by rfl

/-- C1: replay determinism of the orchestration — the sequence of scheduling
requests (agent runs with their prompts, the external-event subscription,
the timer deadline, the activity call with its input, in order) is a function
of the history prefix alone: replaying against any extension reproduces the
shorter replay's requests verbatim, so two replays against the same prefix
produce identical requests. -/
theorem C1_replay_determinism (env : Env) (h₁ h₂ : List HEntry) (hp : h₁ <+: h₂) :
    trace env .stDest h₁ <+: trace env .stDest h₂ := by
  obtain ⟨t, rfl⟩ := hp
  exact trace_mono env .stDest h₁ t

/-- Witness for C1 on a concrete run: the empty prefix's single request is
reproduced by the replay against the three-agent history. -/
theorem C1_witness : trace wEnv .stDest [] <+: trace wEnv .stDest wHist3 :=
  C1_replay_determinism wEnv [] wHist3 ⟨wHist3, rfl⟩

/-- C2: exactly-once dispatch — over the incremental engine run (one replay
per appended completion event) the cumulative dispatches equal the one-pass
request trace, so each distinct scheduling event is dispatched exactly once
and never re-dispatched during fast-forward; moreover no replay ever
requests the `book_trip` activity more than once, and a replay suspended at
the booking activity (the approved branch) has requested it exactly once. -/
theorem C2_exactly_once_dispatch (env : Env) (h : List HEntry) :
    engineDispatches env .stDest h = trace env .stDest h
  ∧ countBook (trace env .stDest h) ≤ 1
  ∧ (∀ d top i l b, runFrom env .stDest h = .stBook d top i l b →
      countBook (trace env .stDest h) = 1) :=
  ⟨engineDispatches_eq_trace env .stDest h, trace_countBook_le_one env .stDest h,
   fun d top i l b hfin => trace_countBook_of_book env .stDest h d top i l b hfin⟩

/-- Witness for C2 on the concrete approved run. -/
theorem C2_witness :
    countBook (trace wEnv .stDest (wHist3 ++ [wRaceApproved])) = 1 :=
  (C2_exactly_once_dispatch wEnv (wHist3 ++ [wRaceApproved])).2.2 wDests wTop
    (.model (.itin wItin)) (.model (.locals wLocals)) wBreq rfl

/-! ### C8: raise-event validity -/

/-- A durable-task client for which the instance `does-not-exist` does not
exist: raising an event against it fails with a not-found error, as the
spec's `raiseEvent` contract prescribes. -/
def nfClient : String → String → JVal → Except String Unit :=
  fun iid _ _ =>
    if iid = "does-not-exist" then .error "no instance found" else .ok ()

/-- C8 counterexample: the claim fails on the Container Apps endpoints,
which perform no status check.  Raising against a non-existent instance
produces a 500 internal error, not NotFound/InvalidState; and against a
terminal instance the event is raised and delivered normally (200), not
rejected or dropped. -/
theorem C8_counterexample :
    approve_travel_plan nfClient "does-not-exist" "2026-10-12T00:00:00"
      = .error (500, "Failed to process approval: no instance found")
  ∧ reject_travel_plan nfClient "does-not-exist" "2026-10-12T00:00:00"
      = .error (500, "Failed to process rejection: no instance found")
  ∧ approve_travel_plan nfClient "completed-instance" "2026-10-12T00:00:00"
      = .ok ⟨"completed-instance", "approved",
          "Travel plan has been approved. The workflow will continue processing."⟩ :=
  ⟨rfl, rfl, rfl⟩

/-- C8 amended: the Azure Functions approve endpoint enforces the validity
conditions — a non-existent instance yields 404 NotFound and an instance
outside Running/Pending/Suspended yields a 400 invalid-state error, the
event being raised only for active instances; the Container Apps
approve/reject endpoints perform no status check and convert any client
failure (including not-found) into a 500 response. -/
theorem C8_raise_event_validity
    (getStatus : String → Option FnStatus)
    (raiseEvent : String → String → JVal → Except String Unit)
    (iid : String) (body : JVal) (now_iso : String) (st : FnStatus) (e : String) :
    (getStatus iid = none →
      fn_approve_travel_plan getStatus raiseEvent iid body
        = ⟨404, .jobj [("error", .jstr "Travel plan not found")]⟩)
  ∧ (getStatus iid = some st →
      (st.runtime_status_name == "Running" || st.runtime_status_name == "Pending"
        || st.runtime_status_name == "Suspended") = false →
      fn_approve_travel_plan getStatus raiseEvent iid body
        = ⟨400, .jobj [("error", .jstr ("Travel plan is no longer active (status: "
              ++ st.runtime_status_name ++ ")")),
            ("status", .jstr st.runtime_status_name)]⟩)
  ∧ (raiseEvent iid "ApprovalEvent"
        (.jobj [("approved", .jbool true), ("timestamp", .jstr now_iso)]) = .error e →
      approve_travel_plan raiseEvent iid now_iso
        = .error (500, "Failed to process approval: " ++ e))
  ∧ (raiseEvent iid "ApprovalEvent"
        (.jobj [("approved", .jbool true), ("timestamp", .jstr now_iso)]) = .ok () →
      approve_travel_plan raiseEvent iid now_iso
        = .ok ⟨iid, "approved",
            "Travel plan has been approved. The workflow will continue processing."⟩) := by
  refine ⟨fun h => ?_, fun h hact => ?_, fun h => ?_, fun h => ?_⟩
  · unfold fn_approve_travel_plan
    rw [h]
  · unfold fn_approve_travel_plan
    rw [h]
    simp [hact]
  · unfold approve_travel_plan
    rw [h]
  · unfold approve_travel_plan
    rw [h]

/-- Witness for C8 on concrete stores and clients. -/
theorem C8_witness :
    fn_approve_travel_plan (fun _ => none) nfClient "does-not-exist" (.jobj [])
      = ⟨404, .jobj [("error", .jstr "Travel plan not found")]⟩
  ∧ fn_approve_travel_plan
      (fun _ => some ⟨"done-1", "Completed", .jnull, .jnull⟩) nfClient "done-1" (.jobj [])
      = ⟨400, .jobj [("error", .jstr "Travel plan is no longer active (status: Completed)"),
          ("status", .jstr "Completed")]⟩
  ∧ approve_travel_plan nfClient "does-not-exist" "2026-10-12T00:00:00"
      = .error (500, "Failed to process approval: no instance found") := by
  refine ⟨?_, ?_, ?_⟩
  · exact (C8_raise_event_validity (fun _ => none) nfClient "does-not-exist" (.jobj [])
      "2026-10-12T00:00:00" ⟨"done-1", "Completed", .jnull, .jnull⟩ "no instance found").1 rfl
  · exact (C8_raise_event_validity (fun _ => some ⟨"done-1", "Completed", .jnull, .jnull⟩)
      nfClient "done-1" (.jobj []) "2026-10-12T00:00:00"
      ⟨"done-1", "Completed", .jnull, .jnull⟩ "no instance found").2.1 rfl rfl
  · exact (C8_raise_event_validity (fun _ => none) nfClient "does-not-exist" (.jobj [])
      "2026-10-12T00:00:00" ⟨"done-1", "Completed", .jnull, .jnull⟩ "no instance found").2.2.1 rfl

/-! ### C3/C4: approval and timeout paths -/

/-- Modelled from the spec: the Orchestration Scheduler's terminal status
projection (§4.3) for an instance with an already-parsed request — a replay
ending in a return completes the instance with that output, otherwise the
instance is still running or waiting. -/
def orchStatus (env : Env) (h : List HEntry) : RunStatus :=
  match runFrom env .stDest h with
  | .done o => .completed o
  | _ => .running

/-- The itinerary value at the wait is a model instance or (falsy) `None`:
the unvalidated passthrough values `parse_agent_response` can also produce
are excluded. -/
def itinClean : PyRaw → Bool
  | .pnone => true
  | .model (.itin _) => true
  | _ => false

/-- The local-recommendations value at the wait is a model instance or
`None`. -/
def localsClean : PyRaw → Bool
  | .pnone => true
  | .model (.locals _) => true
  | _ => false

lemma bookingRequestOf_clean (env : Env) (top : DestinationRecommendation)
    (i : PyRaw) (comments : JVal) (hi : itinClean i = true) :
    ∃ breq, bookingRequestOf env top i comments = .ok breq := by
  cases i with
  | pnone => exact ⟨_, rfl⟩
  | model m =>
    cases m with
    | itin it => exact ⟨_, rfl⟩
    | dest x => simp [itinClean] at hi
    | locals x => simp [itinClean] at hi
  | _ => simp [itinClean] at hi

lemma bookedResult_clean (env : Env) (d : DestinationRecommendations)
    (top : DestinationRecommendation) (i l : PyRaw) (rdict : List (String × String))
    (hi : itinClean i = true) (hl : localsClean l = true) :
    ∃ r, bookedResult env d top i l rdict = .ok r
      ∧ r.booking_confirmation
          = "Booking confirmed for your trip to " ++ top.destination_name
            ++ "! Confirmation ID: " ++ ((rdict.reverse.lookup "booking_id").getD "N/A")
      ∧ r.booking_result = some (validateBookingResult rdict) := by
  cases i with
  | pnone =>
    cases l with
    | pnone => exact ⟨_, rfl, rfl, rfl⟩
    | model m =>
      cases m with
      | locals lr => exact ⟨_, rfl, rfl, rfl⟩
      | dest x => simp [localsClean] at hl
      | itin x => simp [localsClean] at hl
    | _ => simp [localsClean] at hl
  | model m =>
    cases m with
    | itin it =>
      cases l with
      | pnone => exact ⟨_, rfl, rfl, rfl⟩
      | model m' =>
        cases m' with
        | locals lr => exact ⟨_, rfl, rfl, rfl⟩
        | dest x => simp [localsClean] at hl
        | itin x => simp [localsClean] at hl
      | _ => simp [localsClean] at hl
    | dest x => simp [itinClean] at hi
    | locals x => simp [itinClean] at hi
  | _ => simp [itinClean] at hi

lemma rejectedResult_clean (d : DestinationRecommendations) (i l : PyRaw)
    (comments : JVal) (hi : itinClean i = true) (hl : localsClean l = true) :
    ∃ r, rejectedResult d i l comments = .ok r
      ∧ r.booking_confirmation = "Travel plan was not approved. Comments: " ++ pyToString comments
      ∧ r.booking_result = none := by
  cases i with
  | pnone =>
    cases l with
    | pnone => exact ⟨_, rfl, rfl, rfl⟩
    | model m =>
      cases m with
      | locals lr => exact ⟨_, rfl, rfl, rfl⟩
      | dest x => simp [localsClean] at hl
      | itin x => simp [localsClean] at hl
    | _ => simp [localsClean] at hl
  | model m =>
    cases m with
    | itin it =>
      cases l with
      | pnone => exact ⟨_, rfl, rfl, rfl⟩
      | model m' =>
        cases m' with
        | locals lr => exact ⟨_, rfl, rfl, rfl⟩
        | dest x => simp [localsClean] at hl
        | itin x => simp [localsClean] at hl
      | _ => simp [localsClean] at hl
    | dest x => simp [itinClean] at hi
    | locals x => simp [itinClean] at hi
  | _ => simp [itinClean] at hi

lemma timeoutResult_clean (d : DestinationRecommendations) (i l : PyRaw)
    (hi : itinClean i = true) (hl : localsClean l = true) :
    ∃ r, timeoutResult d i l = .ok r
      ∧ r.booking_confirmation = "Travel plan timed out waiting for approval."
      ∧ r.booking_result = none := by
  cases i with
  | pnone =>
    cases l with
    | pnone => exact ⟨_, rfl, rfl, rfl⟩
    | model m =>
      cases m with
      | locals lr => exact ⟨_, rfl, rfl, rfl⟩
      | dest x => simp [localsClean] at hl
      | itin x => simp [localsClean] at hl
    | _ => simp [localsClean] at hl
  | model m =>
    cases m with
    | itin it =>
      cases l with
      | pnone => exact ⟨_, rfl, rfl, rfl⟩
      | model m' =>
        cases m' with
        | locals lr => exact ⟨_, rfl, rfl, rfl⟩
        | dest x => simp [localsClean] at hl
        | itin x => simp [localsClean] at hl
      | _ => simp [localsClean] at hl
    | dest x => simp [itinClean] at hi
    | locals x => simp [itinClean] at hi
  | _ => simp [itinClean] at hi

lemma stepState_wait_race (env : Env) (d : DestinationRecommendations)
    (top : DestinationRecommendation) (i l : PyRaw) (n ts : Nat) (evs : List RaceEv) :
    stepState env (.stWait d top i l n) ⟨ts, .race evs⟩ = stepWait env d top i l evs := rfl

/-- The fast-forwarded part of a replay that ends at the wait contains no
booking request. -/
lemma consumed_countBook_of_wait (env : Env) (s : OrchState) (h : List HEntry)
    (d : DestinationRecommendations) (top : DestinationRecommendation)
    (i l : PyRaw) (n : Nat)
    (hfin : runFrom env s h = .stWait d top i l n) :
    countBook (consumedReqs env s h) = 0 := by
  have h1 := trace_countBook_of_wait env s h d top i l n hfin
  rw [trace_eq_consumed_append_pending, countBook_append, hfin] at h1
  omega

/-- C3 (amended): for every instance that reaches the approval wait with
itinerary and local-recommendation parse results that are model instances or
`None`, raising `ApprovalEvent` with `approved: true` before the timer makes
the orchestration schedule the `book_trip` activity exactly once and
complete with a non-empty booking confirmation, while `approved: false`
completes with a rejection message and no `book_trip` request. -/
theorem C3_approval_path (env : Env) (h₃ : List HEntry)
    (d : DestinationRecommendations) (top : DestinationRecommendation)
    (i l : PyRaw) (n ts₁ ts₂ q : Nat) (ad : List (String × JVal))
    (rdict : List (String × String))
    (hfin : runFrom env .stDest h₃ = .stWait d top i l n)
    (hi : itinClean i = true) (hl : localsClean l = true) :
    (jget ad "approved" = some (.jbool true) →
      ∃ r, orchStatus env (h₃ ++ [⟨ts₁, .race [⟨q, .approval (.jobj ad)⟩]⟩,
              ⟨ts₂, .activityDone rdict⟩]) = .completed (.result r)
        ∧ r.booking_confirmation
            = "Booking confirmed for your trip to " ++ top.destination_name
              ++ "! Confirmation ID: " ++ ((rdict.reverse.lookup "booking_id").getD "N/A")
        ∧ r.booking_confirmation ≠ ""
        ∧ countBook (trace env .stDest (h₃ ++ [⟨ts₁, .race [⟨q, .approval (.jobj ad)⟩]⟩,
              ⟨ts₂, .activityDone rdict⟩])) = 1)
  ∧ (jget ad "approved" = some (.jbool false) →
      ∃ r, orchStatus env (h₃ ++ [⟨ts₁, .race [⟨q, .approval (.jobj ad)⟩]⟩])
            = .completed (.result r)
        ∧ (∃ c, r.booking_confirmation = "Travel plan was not approved. Comments: " ++ c)
        ∧ r.booking_result = none
        ∧ countBook (trace env .stDest (h₃ ++ [⟨ts₁, .race [⟨q, .approval (.jobj ad)⟩]⟩])) = 0) := by
  constructor
  · intro happ
    obtain ⟨breq, hbr⟩ :=
      bookingRequestOf_clean env top i ((jget ad "comments").getD (.jstr "")) hi
    obtain ⟨r, hbook, hconf, hbres⟩ := bookedResult_clean env d top i l rdict hi hl
    have hstep1 : stepState env (.stWait d top i l n)
        ⟨ts₁, .race [⟨q, .approval (.jobj ad)⟩]⟩ = .stBook d top i l breq := by
      rw [stepState_wait_race]
      unfold stepWait
      simp [raceWinner, happ, jtruthy, hbr]
    have hstep2 : stepState env (.stBook d top i l breq) ⟨ts₂, .activityDone rdict⟩
        = .done (.result r) := by
      show toDone (bookedResult env d top i l rdict) = _
      rw [hbook]
      rfl
    have hrun : runFrom env .stDest
        (h₃ ++ [⟨ts₁, .race [⟨q, .approval (.jobj ad)⟩]⟩, ⟨ts₂, .activityDone rdict⟩])
        = .done (.result r) := by
      rw [runFrom_append, hfin]
      simp only [runFrom]
      rw [hstep1, hstep2]
    refine ⟨r, ?_, hconf, ?_, ?_⟩
    · unfold orchStatus
      rw [hrun]
    · rw [hconf]
      intro hc
      have h0 := congrArg String.length hc
      rw [String.length_append, String.length_append, String.length_append] at h0
      have h35 : ("Booking confirmed for your trip to ").length = 35 := rfl
      have hz : ("" : String).length = 0 := rfl
      omega
    · have hc2 : countBook (consumedReqs env (.stWait d top i l n)
          [⟨ts₁, .race [⟨q, .approval (.jobj ad)⟩]⟩, ⟨ts₂, .activityDone rdict⟩]) = 1 := by
        simp [consumedReqs, hstep1, hstep2, pendingReqs, countBook, isBookReq,
          List.countP_cons, List.countP_nil]
      rw [trace_eq_consumed_append_pending, hrun, consumedReqs_append, hfin,
        countBook_append, countBook_append,
        consumed_countBook_of_wait env .stDest h₃ d top i l n hfin, hc2]
      rfl
  · intro happ
    obtain ⟨r, hrej, hconf, hbres⟩ := rejectedResult_clean d i l
      ((jget ad "comments").getD (.jstr "No comments provided")) hi hl
    have hstep1 : stepState env (.stWait d top i l n)
        ⟨ts₁, .race [⟨q, .approval (.jobj ad)⟩]⟩ = .done (.result r) := by
      rw [stepState_wait_race]
      unfold stepWait
      simp [raceWinner, happ, jtruthy, hrej, toDone]
    have hrun : runFrom env .stDest (h₃ ++ [⟨ts₁, .race [⟨q, .approval (.jobj ad)⟩]⟩])
        = .done (.result r) := by
      rw [runFrom_append, hfin]
      simp only [runFrom]
      rw [hstep1]
    refine ⟨r, ?_, ⟨_, hconf⟩, hbres, ?_⟩
    · unfold orchStatus
      rw [hrun]
    · have hc2 : countBook (consumedReqs env (.stWait d top i l n)
          [⟨ts₁, .race [⟨q, .approval (.jobj ad)⟩]⟩]) = 0 := by
        simp [consumedReqs, hstep1, pendingReqs, countBook, isBookReq,
          List.countP_cons, List.countP_nil]
      rw [trace_eq_consumed_append_pending, hrun, consumedReqs_append, hfin,
        countBook_append, countBook_append,
        consumed_countBook_of_wait env .stDest h₃ d top i l n hfin, hc2]
      rfl

/-! ### Counterexample run for C3/C4: the itinerary agent's recorded response
is the JSON string literal `""`, which `parse_agent_response` decodes and
passes through as the falsy empty string.  The orchestration reaches the
wait (the empty string is falsy, so every `if itinerary else "TBD"` guard
takes the default), but the final `TravelPlan(itinerary="")` construction
raises a validation error, so the instance completes with an error dict
instead of a `TravelPlanResult`. -/

def cexEnv : Env := ⟨⟨"Bob", "", 3, "", "", ""⟩, "cex-1"⟩

def cexTop : DestinationRecommendation := ⟨"Rome", "", "", 90⟩

def cexDests : DestinationRecommendations := ⟨[cexTop]⟩

def cexHist3 : List HEntry :=
  [⟨1, .agent ⟨some (some (.dest cexDests)), none, none, .pother⟩⟩,
   ⟨2, .agent ⟨none, some (.pstr "\"\""), none, .pother⟩⟩,
   ⟨3, .agent ⟨some (some (.locals ⟨[], [], ""⟩)), none, none, .pother⟩⟩]

def cexRaceTrue : HEntry := ⟨4, .race [⟨9, .approval (.jobj [("approved", .jbool true)])⟩]⟩

def cexBook : HEntry :=
  ⟨5, .activityDone (book_trip 111111 [("destination_name", "Rome")])⟩

/-- C3 counterexample: this instance reaches the approval wait and is
approved with `approved: true`; the `book_trip` activity is scheduled
exactly once, yet the orchestration does not return a result with a
booking confirmation — it completes with an error dict, because the
itinerary value (an unvalidated parse passthrough) fails the final
`TravelPlan` validation. -/
theorem C3_counterexample :
    runFrom cexEnv .stDest cexHist3
      = .stWait cexDests cexTop (.pstr "") (.model (.locals ⟨[], [], ""⟩)) 3
  ∧ countBook (trace cexEnv .stDest (cexHist3 ++ [cexRaceTrue, cexBook])) = 1
  ∧ runFrom cexEnv .stDest (cexHist3 ++ [cexRaceTrue, cexBook])
      = .done (.errorDict "ValidationError: Itinerary field of TravelPlan") :=
  ⟨rfl, rfl, rfl⟩

def wBookDone : HEntry :=
  ⟨500, .activityDone (book_trip 123456
    [("destination_name", "Paris"), ("estimated_cost", "1000 EUR")])⟩

/-- Witness for C3 on the concrete clean run, both branches. -/
theorem C3_witness :
    (∃ r, orchStatus wEnv (wHist3 ++ [⟨400, .race [⟨7, .approval
            (.jobj [("approved", .jbool true)])⟩]⟩, wBookDone]) = .completed (.result r)
      ∧ r.booking_confirmation
          = "Booking confirmed for your trip to " ++ wTop.destination_name
            ++ "! Confirmation ID: "
            ++ (((book_trip 123456 [("destination_name", "Paris"),
                  ("estimated_cost", "1000 EUR")]).reverse.lookup "booking_id").getD "N/A")
      ∧ r.booking_confirmation ≠ ""
      ∧ countBook (trace wEnv .stDest (wHist3 ++ [⟨400, .race [⟨7, .approval
            (.jobj [("approved", .jbool true)])⟩]⟩, wBookDone])) = 1)
  ∧ (∃ r, orchStatus wEnv (wHist3 ++ [⟨400, .race [⟨7, .approval
            (.jobj [("approved", .jbool false)])⟩]⟩]) = .completed (.result r)
      ∧ (∃ c, r.booking_confirmation = "Travel plan was not approved. Comments: " ++ c)
      ∧ r.booking_result = none
      ∧ countBook (trace wEnv .stDest (wHist3 ++ [⟨400, .race [⟨7, .approval
            (.jobj [("approved", .jbool false)])⟩]⟩])) = 0) :=
  ⟨(C3_approval_path wEnv wHist3 wDests wTop (.model (.itin wItin))
      (.model (.locals wLocals)) 300 400 500 7 [("approved", .jbool true)]
      (book_trip 123456 [("destination_name", "Paris"), ("estimated_cost", "1000 EUR")])
      rfl rfl rfl).1 rfl,
   (C3_approval_path wEnv wHist3 wDests wTop (.model (.itin wItin))
      (.model (.locals wLocals)) 300 400 500 7 [("approved", .jbool false)]
      (book_trip 123456 [("destination_name", "Paris"), ("estimated_cost", "1000 EUR")])
      rfl rfl rfl).2 rfl⟩

/-- C4 (amended): for every instance that reaches the approval wait with
itinerary and local-recommendation parse results that are model instances or
`None`, a timer firing with no `ApprovalEvent` ever raised completes the
instance through the timeout branch with the fixed timeout message, no
booking result, and no `book_trip` request. -/
theorem C4_timeout_path (env : Env) (h₃ : List HEntry)
    (d : DestinationRecommendations) (top : DestinationRecommendation)
    (i l : PyRaw) (n ts q : Nat)
    (hfin : runFrom env .stDest h₃ = .stWait d top i l n)
    (hi : itinClean i = true) (hl : localsClean l = true) :
    ∃ r, orchStatus env (h₃ ++ [⟨ts, .race [⟨q, .timerFired⟩]⟩]) = .completed (.result r)
      ∧ r.booking_confirmation = "Travel plan timed out waiting for approval."
      ∧ r.booking_result = none
      ∧ countBook (trace env .stDest (h₃ ++ [⟨ts, .race [⟨q, .timerFired⟩]⟩])) = 0 := by
  obtain ⟨r, htm, hconf, hbres⟩ := timeoutResult_clean d i l hi hl
  have hstep1 : stepState env (.stWait d top i l n) ⟨ts, .race [⟨q, .timerFired⟩]⟩
      = .done (.result r) := by
    rw [stepState_wait_race]
    unfold stepWait
    simp [raceWinner, htm, toDone]
  have hrun : runFrom env .stDest (h₃ ++ [⟨ts, .race [⟨q, .timerFired⟩]⟩])
      = .done (.result r) := by
    rw [runFrom_append, hfin]
    simp only [runFrom]
    rw [hstep1]
  refine ⟨r, ?_, hconf, hbres, ?_⟩
  · unfold orchStatus
    rw [hrun]
  · have hc2 : countBook (consumedReqs env (.stWait d top i l n)
        [⟨ts, .race [⟨q, .timerFired⟩]⟩]) = 0 := by
      simp [consumedReqs, hstep1, pendingReqs, countBook, isBookReq,
        List.countP_cons, List.countP_nil]
    rw [trace_eq_consumed_append_pending, hrun, consumedReqs_append, hfin,
      countBook_append, countBook_append,
      consumed_countBook_of_wait env .stDest h₃ d top i l n hfin, hc2]
    rfl

/-- C4 counterexample: the same instance that reaches the approval wait with
the unvalidated itinerary passthrough, when its timer fires with no
`ApprovalEvent` ever raised, completes with an error dict rather than a
`TravelPlanResult` with the timeout message. -/
theorem C4_counterexample :
    runFrom cexEnv .stDest (cexHist3 ++ [⟨4, .race [⟨9, .timerFired⟩]⟩])
      = .done (.errorDict "ValidationError: Itinerary field of TravelPlan")
  ∧ countBook (trace cexEnv .stDest (cexHist3 ++ [⟨4, .race [⟨9, .timerFired⟩]⟩])) = 0 :=
  ⟨rfl, rfl⟩

/-- Witness for C4 on the concrete clean run. -/
theorem C4_witness :
    ∃ r, orchStatus wEnv (wHist3 ++ [⟨400, .race [⟨7, .timerFired⟩]⟩])
        = .completed (.result r)
      ∧ r.booking_confirmation = "Travel plan timed out waiting for approval."
      ∧ r.booking_result = none
      ∧ countBook (trace wEnv .stDest (wHist3 ++ [⟨400, .race [⟨7, .timerFired⟩]⟩])) = 0 :=
  C4_timeout_path wEnv wHist3 wDests wTop (.model (.itin wItin))
    (.model (.locals wLocals)) 300 400 7 rfl rfl rfl

/-- C6: race determinism — of an external-event completion and a timer-fire
completion appended for the racing awaitables, the one with the lower
sequence number is the winner (whichever order they were appended in, and
deterministically, `raceWinner` being a function of the history); and a
losing timer firing after the race is decided changes neither the replayed
run nor its scheduling requests — it never resumes the decided wait or
re-triggers the branch. -/
theorem C6_race_determinism :
    (∀ (sa st : Nat) (dv : JVal), sa ≠ st →
      raceWinner [⟨sa, .approval dv⟩, ⟨st, .timerFired⟩]
          = some (if sa < st then ⟨sa, .approval dv⟩ else ⟨st, .timerFired⟩)
        ∧ raceWinner [⟨st, .timerFired⟩, ⟨sa, .approval dv⟩]
          = some (if sa < st then ⟨sa, .approval dv⟩ else ⟨st, .timerFired⟩))
  ∧ (∀ (env : Env) (h₃ rest : List HEntry) (d : DestinationRecommendations)
      (top : DestinationRecommendation) (i l : PyRaw) (n ts lateSeq : Nat)
      (evs : List RaceEv) (w : RaceEv),
      runFrom env .stDest h₃ = .stWait d top i l n →
      raceWinner evs = some w → w.seq < lateSeq →
      runFrom env .stDest (h₃ ++ ⟨ts, .race (evs ++ [⟨lateSeq, .timerFired⟩])⟩ :: rest)
          = runFrom env .stDest (h₃ ++ ⟨ts, .race evs⟩ :: rest)
        ∧ trace env .stDest (h₃ ++ ⟨ts, .race (evs ++ [⟨lateSeq, .timerFired⟩])⟩ :: rest)
          = trace env .stDest (h₃ ++ ⟨ts, .race evs⟩ :: rest)) := by
  constructor
  · intro sa st dv hne
    constructor
    · have hdef : raceWinner [⟨sa, .approval dv⟩, ⟨st, .timerFired⟩]
          = some (if st < sa then ⟨st, .timerFired⟩ else ⟨sa, .approval dv⟩) := rfl
      rw [hdef]
      by_cases h : sa < st
      · rw [if_pos h, if_neg (Nat.lt_asymm h)]
      · have h' : st < sa := by omega
        rw [if_neg h, if_pos h']
    · rfl
  · intro env h₃ rest d top i l n ts lateSeq evs w hfin hw hlate
    have hcongr : stepState env (.stWait d top i l n)
        ⟨ts, .race (evs ++ [⟨lateSeq, .timerFired⟩])⟩
        = stepState env (.stWait d top i l n) ⟨ts, .race evs⟩ := by
      rw [stepState_wait_race, stepState_wait_race]
      refine stepWait_congr env d top i l _ _ ?_
      rw [raceWinner_late_loser evs ⟨lateSeq, .timerFired⟩ w hw hlate, hw]
    have hrunEq : runFrom env .stDest
        (h₃ ++ ⟨ts, .race (evs ++ [⟨lateSeq, .timerFired⟩])⟩ :: rest)
        = runFrom env .stDest (h₃ ++ ⟨ts, .race evs⟩ :: rest) := by
      rw [runFrom_append, runFrom_append, hfin]
      simp only [runFrom]
      rw [hcongr]
    refine ⟨hrunEq, ?_⟩
    rw [trace_eq_consumed_append_pending, trace_eq_consumed_append_pending, hrunEq,
      consumedReqs_append, consumedReqs_append, hfin]
    have hceq : consumedReqs env (.stWait d top i l n)
        (⟨ts, .race (evs ++ [⟨lateSeq, .timerFired⟩])⟩ :: rest)
        = consumedReqs env (.stWait d top i l n) (⟨ts, .race evs⟩ :: rest) := by
      simp only [consumedReqs, pendingReqs]
      rw [hcongr]
    rw [hceq]

/-- Witness for C6: a concrete two-event race decided by sequence number,
and the concrete clean run where a late timer fire after the approval won
leaves the replay unchanged. -/
theorem C6_witness :
    raceWinner [⟨1, .approval (.jobj [("approved", .jbool true)])⟩, ⟨2, .timerFired⟩]
        = some (if 1 < 2 then ⟨1, .approval (.jobj [("approved", .jbool true)])⟩
            else ⟨2, .timerFired⟩)
  ∧ runFrom wEnv .stDest (wHist3 ++ ⟨400, .race [⟨7, .approval
        (.jobj [("approved", .jbool true)])⟩, ⟨8, .timerFired⟩]⟩ :: [])
      = runFrom wEnv .stDest (wHist3 ++ ⟨400, .race [⟨7, .approval
        (.jobj [("approved", .jbool true)])⟩]⟩ :: []) :=
  ⟨(C6_race_determinism.1 1 2 (.jobj [("approved", .jbool true)]) (by decide)).1,
   (C6_race_determinism.2 wEnv wHist3 [] wDests wTop (.model (.itin wItin))
      (.model (.locals wLocals)) 300 400 8
      [⟨7, .approval (.jobj [("approved", .jbool true)])⟩]
      ⟨7, .approval (.jobj [("approved", .jbool true)])⟩ rfl rfl (by decide)).1⟩

end TravelPlanner
